import Mathlib

/-!
Verification of the ui-annotator interactive-canvas core.

This file gives a shallow embedding, over exact rational arithmetic, of the
annotation editor's geometry module (`src/apps/web/src/lib/geometry.ts`),
element factory (`features/annotation/services/element-factory.ts`),
snapping engine (`features/annotation/hooks/use-konva-snap.ts`) and
annotation store (`features/annotation/store/annotation-store.ts`), and
proves the specification's claims about them.

JavaScript `number` values are modelled as `ℚ` (all the operations involved
are field operations, `min`/`max` and absolute value).  Non-deterministic
inputs of the source (`uuidv4()` identifiers, `new Date().toISOString()`
timestamps) are modelled as explicit parameters of the corresponding
functions.
-/

namespace UIAnnotator

/-- 2D point `{x, y}` in image pixel space. -/
structure Point where
  x : ℚ
  y : ℚ
deriving DecidableEq, Repr

/-- `PixelCoord` from `types/geometry`: position + size in image pixel space. -/
structure PixelCoord where
  x : ℚ
  y : ℚ
  w : ℚ
  h : ℚ
deriving DecidableEq, Repr

/-- `NormCoord`: the same rectangle normalized to image dimensions. -/
structure NormCoord where
  x : ℚ
  y : ℚ
  w : ℚ
  h : ℚ
deriving DecidableEq, Repr

/-- `ImageSize` from `lib/geometry.ts`. -/
structure ImageSize where
  w : ℚ
  h : ℚ
deriving DecidableEq, Repr

/-- `BBox`: dual pixel/normalized representation. -/
structure BBox where
  pixel : PixelCoord
  norm : NormCoord
deriving DecidableEq, Repr

/-- `pixelToNorm` (`lib/geometry.ts`): componentwise divide. -/
def pixelToNorm (pixel : PixelCoord) (imageSize : ImageSize) : NormCoord :=
  { x := pixel.x / imageSize.w
    y := pixel.y / imageSize.h
    w := pixel.w / imageSize.w
    h := pixel.h / imageSize.h }

/-- `createBBox` (`lib/geometry.ts`). -/
def createBBox (pixel : PixelCoord) (imageSize : ImageSize) : BBox :=
  { pixel := pixel
    norm := pixelToNorm pixel imageSize }

/-- `Partial<PixelCoord>`: each field optionally present. -/
structure PixelUpdate where
  x : Option ℚ := none
  y : Option ℚ := none
  w : Option ℚ := none
  h : Option ℚ := none
deriving DecidableEq, Repr

/-- JS object spread `{ ...bbox.pixel, ...pixelUpdate }`. -/
def mergePixel (pixel : PixelCoord) (u : PixelUpdate) : PixelCoord :=
  { x := u.x.getD pixel.x
    y := u.y.getD pixel.y
    w := u.w.getD pixel.w
    h := u.h.getD pixel.h }

/-- `updateBBoxPixel` (`lib/geometry.ts`): merge partial pixel fields, then
rebuild via `createBBox`. -/
def updateBBoxPixel (bbox : BBox) (pixelUpdate : PixelUpdate)
    (imageSize : ImageSize) : BBox :=
  createBBox (mergePixel bbox.pixel pixelUpdate) imageSize

/-- Element identifier (`ElementId = string`). -/
abbrev ElementId := String

/-- `ComponentSpec` (`types/component.ts`).  The optional `props` record holds
opaque JSON values never inspected by the core; it is modelled as an opaque
association list of strings. -/
structure ComponentSpec where
  name : String
  props : Option (List (String × String)) := none
deriving DecidableEq, Repr

/-- `ElementColor`: a string tag from a fixed palette. -/
abbrev ElementColor := String

/-- `EditorElement` (`types/editor-element.ts`).  The in-memory `image` object
is not part of an element; timestamps are ISO strings. -/
structure EditorElement where
  id : ElementId
  label : String
  bbox : BBox
  component : Option ComponentSpec := none
  notes : Option String := none
  serialNumber : ℚ
  color : Option ElementColor := none
  displayOrder : ℚ
  createdAt : String
  updatedAt : String
deriving DecidableEq, Repr

/-- `CreateElementOptions` (`services/element-factory.ts`). -/
structure CreateElementOptions where
  bbox : BBox
  existingElements : List EditorElement
  label : Option String := none
  component : Option ComponentSpec := none
  notes : Option String := none
  color : Option ElementColor := none

/-- `generateSerialNumber` (`services/element-factory.ts`): 1 if no elements,
otherwise `Math.max(...serialNumbers) + 1`.  The source additionally filters
out non-number / `NaN` entries; `serialNumber : ℚ` has no such values, so the
filter keeps every entry and is omitted. -/
def generateSerialNumber (existingElements : List EditorElement) : ℚ :=
  if existingElements.length = 0 then 1
  else
    match existingElements.map (fun el => el.serialNumber) with
    | [] => 1
    | s :: rest => rest.foldl max s + 1

/-- `createElement` (`services/element-factory.ts`).  `uuidv4()` is modelled by
the explicit `newId` parameter and `new Date().toISOString()` by `now`. -/
def createElement (newId : ElementId) (now : String)
    (options : CreateElementOptions) : EditorElement :=
  { id := newId
    label := options.label.getD ""
    bbox := options.bbox
    serialNumber := generateSerialNumber options.existingElements
    displayOrder := (options.existingElements.length : ℚ)
    createdAt := now
    updatedAt := now
    component := options.component
    notes := options.notes
    color := options.color }

/-- `canvasConfig` (`constants/canvas.ts`). -/
structure CanvasConfig where
  minAnnotationSize : ℚ
  zoomFactor : ℚ
  minScale : ℚ
  maxScale : ℚ
  defaultScale : ℚ
  fitPadding : ℚ

/-- The concrete `canvasConfig` values. -/
def canvasConfig : CanvasConfig :=
  { minAnnotationSize := 10
    zoomFactor := 6/5
    minScale := 1/10
    maxScale := 5
    defaultScale := 1
    fitPadding := 9/10 }

/-- `snapConfig` (`constants/canvas.ts`). -/
structure SnapConfig where
  threshold : ℚ

/-- The concrete `snapConfig` value: 8px snap threshold. -/
def snapConfig : SnapConfig := { threshold := 8 }

/-- `Project` (`types/project`): owns the element collection. -/
structure Project where
  id : String
  name : String
  description : Option String := none
  sourceFileName : String
  imageUrl : String
  imageWidth : ℚ
  imageHeight : ℚ
  elements : List EditorElement
  createdAt : String
  updatedAt : String
deriving DecidableEq, Repr

/-- `ViewportState` (`store/types.ts`). -/
structure ViewportState where
  scale : ℚ
  offsetX : ℚ
  offsetY : ℚ
  minScale : ℚ
  maxScale : ℚ
deriving DecidableEq, Repr

/-- `ContainerSize` (`store/types.ts`). -/
structure ContainerSize where
  width : ℚ
  height : ℚ
deriving DecidableEq, Repr

/-- `SelectionState` (`store/types.ts`). -/
structure SelectionState where
  selectedIds : List ElementId
deriving DecidableEq, Repr

/-- `DrawingState` (`store/types.ts`). -/
structure DrawingState where
  isDrawing : Bool
  startPoint : Option Point
  currentPoint : Option Point
deriving DecidableEq, Repr

/-- `ClipboardState` (`store/types.ts`). -/
structure ClipboardState where
  elements : List EditorElement
deriving DecidableEq, Repr

/-- `ToolMode` (`store/types.ts`). -/
inductive ToolMode where
  | edit
  | pan
deriving DecidableEq, Repr

/-- `initialViewportState`: scale 1, offsets 0, minScale 0.1, maxScale 5. -/
def initialViewportState : ViewportState :=
  { scale := 1, offsetX := 0, offsetY := 0, minScale := 1/10, maxScale := 5 }

/-- `initialContainerSize`. -/
def initialContainerSize : ContainerSize := { width := 0, height := 0 }

/-- `initialSelectionState`. -/
def initialSelectionState : SelectionState := { selectedIds := [] }

/-- `initialDrawingState`. -/
def initialDrawingState : DrawingState :=
  { isDrawing := false, startPoint := none, currentPoint := none }

/-- `initialClipboardState`. -/
def initialClipboardState : ClipboardState := { elements := [] }

/-- `AnnotationState` (`store/types.ts`).  The `image : HTMLImageElement`
field (an opaque browser handle, never read by the actions verified here) is
not modelled. -/
structure AnnotationState where
  project : Option Project
  elements : List EditorElement
  selection : SelectionState
  drawing : DrawingState
  viewport : ViewportState
  containerSize : ContainerSize
  activeTool : ToolMode
  clipboard : ClipboardState
deriving DecidableEq, Repr

/-- `initialState` of the annotation store. -/
def initialState : AnnotationState :=
  { project := none
    elements := []
    selection := initialSelectionState
    drawing := initialDrawingState
    viewport := initialViewportState
    containerSize := initialContainerSize
    activeTool := ToolMode.edit
    clipboard := initialClipboardState }

/-- Result shape of `getImageSize` in the store: `{width, height}`. -/
structure WH where
  width : ℚ
  height : ℚ
deriving DecidableEq, Repr

/-- `getImageSize` (`store/annotation-store.ts`). -/
def getImageSize (project : Option Project) : Option WH :=
  match project with
  | some p => some { width := p.imageWidth, height := p.imageHeight }
  | none => none

/-- `syncElementsToProject` (`store/annotation-store.ts`): copy `elements`
into `project.elements` and re-stamp `project.updatedAt`. -/
def syncElementsToProject (now : String) (s : AnnotationState) :
    AnnotationState :=
  match s.project with
  | some p =>
      { s with project := some { p with elements := s.elements, updatedAt := now } }
  | none => s

/-- `ElementUpdate` (`types/editor-element.ts`).  The `component` field uses
`Option (Option ComponentSpec)`: `none` means the key is absent
(`undefined`), `some none` means an explicit `null` (clear the component),
`some (some c)` means set it to `c`. -/
structure ElementUpdate where
  label : Option String := none
  bbox : Option BBox := none
  component : Option (Option ComponentSpec) := none
  notes : Option String := none
  color : Option ElementColor := none
  displayOrder : Option ℚ := none
deriving Repr

/-- The field-by-field mutation performed on the found element inside
`updateElement`.  `element.notes = updates.notes || undefined` maps the empty
string to `undefined`. -/
def applyElementUpdate (updates : ElementUpdate) (now : String)
    (e : EditorElement) : EditorElement :=
  let e1 := match updates.component with
    | some none => { e with component := none }
    | some (some c) => { e with component := some c }
    | none => e
  let e2 := match updates.label with
    | some l => { e1 with label := l }
    | none => e1
  let e3 := match updates.bbox with
    | some b => { e2 with bbox := b }
    | none => e2
  let e4 := match updates.notes with
    | some n => { e3 with notes := if n = "" then none else some n }
    | none => e3
  let e5 := match updates.color with
    | some c => { e4 with color := some c }
    | none => e4
  let e6 := match updates.displayOrder with
    | some d => { e5 with displayOrder := d }
    | none => e5
  { e6 with updatedAt := now }

/-- Mutating the element returned by `Array.prototype.find` updates the first
element of the array with the given id, leaving the rest untouched. -/
def updateFirst (id : ElementId) (f : EditorElement → EditorElement) :
    List EditorElement → List EditorElement
  | [] => []
  | e :: rest =>
      if e.id = id then f e :: rest else e :: updateFirst id f rest

/-- `addElement` (`store/annotation-store.ts`): push and sync. -/
def addElement (element : EditorElement) (now : String)
    (s : AnnotationState) : AnnotationState :=
  syncElementsToProject now { s with elements := s.elements ++ [element] }

/-- `updateElement` (`store/annotation-store.ts`): find the element, early
return if absent, otherwise apply the field updates, stamp `updatedAt`, and
sync to the project. -/
def updateElement (id : ElementId) (updates : ElementUpdate) (now : String)
    (s : AnnotationState) : AnnotationState :=
  if s.elements.any (fun e => e.id == id) then
    syncElementsToProject now
      { s with elements := updateFirst id (applyElementUpdate updates now) s.elements }
  else s

/-- `deleteElement` (`store/annotation-store.ts`): filter the element out of
`elements` and out of the selection, then sync.  `displayOrder` values of the
remaining elements are not touched. -/
def deleteElement (id : ElementId) (now : String) (s : AnnotationState) :
    AnnotationState :=
  syncElementsToProject now
    { s with
      elements := s.elements.filter (fun e => e.id != id)
      selection := { selectedIds := s.selection.selectedIds.filter (fun selectedId => selectedId != id) } }

/-- `moveElement` (`store/annotation-store.ts`): early return when the id is
absent or no project is loaded; otherwise shift the first matching element's
pixel position by the deltas via `updateBBoxPixel` and stamp `updatedAt`. -/
def moveElement (id : ElementId) (deltaX deltaY : ℚ) (now : String)
    (s : AnnotationState) : AnnotationState :=
  match s.elements.find? (fun e => e.id == id), getImageSize s.project with
  | some _, some imageSize =>
      syncElementsToProject now
        { s with elements := updateFirst id (fun element =>
            { element with
              bbox := updateBBoxPixel element.bbox
                { x := some (element.bbox.pixel.x + deltaX)
                  y := some (element.bbox.pixel.y + deltaY) }
                { w := imageSize.width, h := imageSize.height }
              updatedAt := now }) s.elements }
  | _, _ => s

/-- `deleteSelectedElements` (`store/annotation-store.ts`). -/
def deleteSelectedElements (now : String) (s : AnnotationState) :
    AnnotationState :=
  if s.selection.selectedIds.length = 0 then s
  else
    syncElementsToProject now
      { s with
        elements := s.elements.filter (fun e => !(s.selection.selectedIds.contains e.id))
        selection := { selectedIds := [] } }

/-- `reorderElements` (`store/annotation-store.ts`): splice the element from
`oldIndex`, re-insert it at `newIndex`, then reassign every `displayOrder`
from the element's new list index.  With an out-of-range `oldIndex` the
source dereferences `undefined` and throws; that case is modelled as a no-op
and no claim quantifies over it. -/
def reorderElements (oldIndex newIndex : Nat) (now : String)
    (s : AnnotationState) : AnnotationState :=
  match s.elements.get? oldIndex with
  | none => s
  | some removed =>
      let reordered := (s.elements.eraseIdx oldIndex).insertIdx newIndex removed
      syncElementsToProject now
        { s with elements := reordered.enum.map (fun p => { p.2 with displayOrder := (p.1 : ℚ) }) }

/-- `selectElement` (`store/annotation-store.ts`). -/
def selectElement (id : ElementId) (addToSelection : Bool)
    (s : AnnotationState) : AnnotationState :=
  if addToSelection then
    if s.selection.selectedIds.contains id then s
    else { s with selection := { selectedIds := s.selection.selectedIds ++ [id] } }
  else { s with selection := { selectedIds := [id] } }

/-- `deselectAll` (`store/annotation-store.ts`). -/
def deselectAll (s : AnnotationState) : AnnotationState :=
  { s with selection := { selectedIds := [] } }

/-- `copySelectedElements` (`store/annotation-store.ts`): deep-copy the
selected elements into the clipboard (the JSON round-trip of the source is a
value copy here). -/
def copySelectedElements (s : AnnotationState) : AnnotationState :=
  let selectedElements := s.elements.filter (fun e => s.selection.selectedIds.contains e.id)
  if selectedElements.length = 0 then s
  else { s with clipboard := { elements := selectedElements } }

/-- The element-building loop of `pasteElements`: one new element per
clipboard element, offset by the fixed 20px paste offset, created through the
factory against `[...elements, ...newElements]`.  `newIds` supplies one
`uuidv4()` result per clipboard element. -/
def pasteLoop (imageSize : WH) (now : String)
    (elements : List EditorElement) :
    List EditorElement → List ElementId → List EditorElement
  | [], _ => []
  | _ :: _, [] => []
  | clipboardElement :: rest, newId :: ids =>
      let pixel := clipboardElement.bbox.pixel
      let newBbox := createBBox
        { x := pixel.x + 20, y := pixel.y + 20, w := pixel.w, h := pixel.h }
        { w := imageSize.width, h := imageSize.height }
      let newElement := createElement newId now
        { bbox := newBbox
          label := some clipboardElement.label
          component := clipboardElement.component
          notes := clipboardElement.notes
          color := clipboardElement.color
          existingElements := elements }
      newElement :: pasteLoop imageSize now (elements ++ [newElement]) rest ids

/-- `pasteElements` (`store/annotation-store.ts`): append the new elements,
select exactly them, and replace the clipboard with the just-pasted copies. -/
def pasteElements (newIds : List ElementId) (now : String)
    (s : AnnotationState) : AnnotationState :=
  match getImageSize s.project with
  | none => s
  | some imageSize =>
      if s.clipboard.elements.length = 0 then s
      else
        let newElements := pasteLoop imageSize now s.elements s.clipboard.elements newIds
        syncElementsToProject now
          { s with
            elements := s.elements ++ newElements
            selection := { selectedIds := newElements.map (fun e => e.id) }
            clipboard := { elements := newElements } }

/-- `startDrawing` (`store/annotation-store.ts`). -/
def startDrawing (point : Point) (s : AnnotationState) : AnnotationState :=
  { s with drawing := { isDrawing := true, startPoint := some point, currentPoint := some point } }

/-- `updateDrawing` (`store/annotation-store.ts`). -/
def updateDrawing (point : Point) (s : AnnotationState) : AnnotationState :=
  if s.drawing.isDrawing then
    { s with drawing := { s.drawing with currentPoint := some point } }
  else s

/-- `finishDrawing` (`store/annotation-store.ts`): returns the created
element (or `null`) together with the next state. -/
def finishDrawing (newId : ElementId) (now : String) (s : AnnotationState) :
    Option EditorElement × AnnotationState :=
  match s.drawing.isDrawing, s.drawing.startPoint, s.drawing.currentPoint,
      getImageSize s.project with
  | true, some startPoint, some currentPoint, some imageSize =>
      let x := min startPoint.x currentPoint.x
      let y := min startPoint.y currentPoint.y
      let w := |currentPoint.x - startPoint.x|
      let h := |currentPoint.y - startPoint.y|
      if w < canvasConfig.minAnnotationSize ∨ h < canvasConfig.minAnnotationSize then
        (none, { s with drawing := initialDrawingState })
      else
        let bbox := createBBox { x := x, y := y, w := w, h := h }
          { w := imageSize.width, h := imageSize.height }
        let element := createElement newId now
          { bbox := bbox, existingElements := s.elements }
        (some element,
          syncElementsToProject now
            { s with
              elements := s.elements ++ [element]
              drawing := initialDrawingState
              selection := { selectedIds := [element.id] } })
  | _, _, _, _ => (none, { s with drawing := initialDrawingState })

/-- `cancelDrawing` (`store/annotation-store.ts`). -/
def cancelDrawing (s : AnnotationState) : AnnotationState :=
  { s with drawing := initialDrawingState }

/-- `loadProject` (`store/annotation-store.ts`); the image argument is the
unmodelled browser handle. -/
def loadProject (project : Project) (s : AnnotationState) : AnnotationState :=
  { s with
    project := some project
    elements := project.elements
    selection := initialSelectionState
    viewport := initialViewportState
    drawing := initialDrawingState }

/-- `setScale` (`store/annotation-store.ts`): clamp to `[minScale, maxScale]`. -/
def setScale (scale : ℚ) (s : AnnotationState) : AnnotationState :=
  { s with viewport := { s.viewport with
      scale := min (max scale s.viewport.minScale) s.viewport.maxScale } }

/-- `setOffset` (`store/annotation-store.ts`). -/
def setOffset (x y : ℚ) (s : AnnotationState) : AnnotationState :=
  { s with viewport := { s.viewport with offsetX := x, offsetY := y } }

/-- `setViewport` (`store/annotation-store.ts`): batched atomic update of
scale (clamped) and both offsets. -/
def setViewport (scale offsetX offsetY : ℚ) (s : AnnotationState) :
    AnnotationState :=
  { s with viewport := { s.viewport with
      scale := min (max scale s.viewport.minScale) s.viewport.maxScale
      offsetX := offsetX
      offsetY := offsetY } }

/-- `setContainerSize` (`store/annotation-store.ts`). -/
def setContainerSize (width height : ℚ) (s : AnnotationState) :
    AnnotationState :=
  { s with containerSize := { width := width, height := height } }

/-- `zoomIn` (`store/annotation-store.ts`): multiply scale by the zoom factor
(capped at `maxScale`), re-anchored on the container's visual center. -/
def zoomIn (s : AnnotationState) : AnnotationState :=
  if s.containerSize.width = 0 ∨ s.containerSize.height = 0 then s
  else
    let oldScale := s.viewport.scale
    let newScale := min (oldScale * canvasConfig.zoomFactor) s.viewport.maxScale
    let centerX := s.containerSize.width / 2
    let centerY := s.containerSize.height / 2
    let worldX := (centerX - s.viewport.offsetX) / oldScale
    let worldY := (centerY - s.viewport.offsetY) / oldScale
    { s with viewport := { s.viewport with
        scale := newScale
        offsetX := centerX - worldX * newScale
        offsetY := centerY - worldY * newScale } }

/-- `zoomOut` (`store/annotation-store.ts`): divide scale by the zoom factor
(floored at `minScale`), re-anchored on the container's visual center. -/
def zoomOut (s : AnnotationState) : AnnotationState :=
  if s.containerSize.width = 0 ∨ s.containerSize.height = 0 then s
  else
    let oldScale := s.viewport.scale
    let newScale := max (oldScale / canvasConfig.zoomFactor) s.viewport.minScale
    let centerX := s.containerSize.width / 2
    let centerY := s.containerSize.height / 2
    let worldX := (centerX - s.viewport.offsetX) / oldScale
    let worldY := (centerY - s.viewport.offsetY) / oldScale
    { s with viewport := { s.viewport with
        scale := newScale
        offsetX := centerX - worldX * newScale
        offsetY := centerY - worldY * newScale } }

/-- `zoomToFit` (`store/annotation-store.ts`): fit the image into the
container with the padding factor, clamped, then center it. -/
def zoomToFit (s : AnnotationState) : AnnotationState :=
  match getImageSize s.project with
  | none => s
  | some imageSize =>
      if s.containerSize.width = 0 ∨ s.containerSize.height = 0 then s
      else
        let scaleX := s.containerSize.width / imageSize.width
        let scaleY := s.containerSize.height / imageSize.height
        let scale := min scaleX scaleY * canvasConfig.fitPadding
        let clamped := min (max scale s.viewport.minScale) s.viewport.maxScale
        { s with viewport := { s.viewport with
            scale := clamped
            offsetX := (s.containerSize.width - imageSize.width * clamped) / 2
            offsetY := (s.containerSize.height - imageSize.height * clamped) / 2 } }

/-- `centerAt100` (`store/annotation-store.ts`): scale 1, image centered. -/
def centerAt100 (s : AnnotationState) : AnnotationState :=
  match getImageSize s.project with
  | none => s
  | some imageSize =>
      if s.containerSize.width = 0 ∨ s.containerSize.height = 0 then s
      else
        { s with viewport := { s.viewport with
            scale := 1
            offsetX := (s.containerSize.width - imageSize.width) / 2
            offsetY := (s.containerSize.height - imageSize.height) / 2 } }

/-- `resetViewport` (`store/annotation-store.ts`). -/
def resetViewport (s : AnnotationState) : AnnotationState :=
  { s with viewport := initialViewportState }

/-- Modelled from the spec: the state kept by the zundo temporal middleware
(not under `src/`, it is a third-party package) — a bounded history of
snapshots of the `elements` array with past and future stacks, most recent
first. -/
structure TemporalState where
  pastStates : List (List EditorElement)
  futureStates : List (List EditorElement)
deriving DecidableEq, Repr

/-- Modelled from the spec: `temporal.undo()` of the zundo middleware
restores the most recent past snapshot of `elements` and moves the current
one onto the future stack; on an empty past it does nothing. -/
def temporalUndo (t : TemporalState) (current : List EditorElement) :
    TemporalState × List EditorElement :=
  match t.pastStates with
  | [] => (t, current)
  | prev :: rest => ({ pastStates := rest, futureStates := current :: t.futureStates }, prev)

/-- Modelled from the spec: `temporal.redo()` restores the most recent future
snapshot and moves the current one onto the past stack. -/
def temporalRedo (t : TemporalState) (current : List EditorElement) :
    TemporalState × List EditorElement :=
  match t.futureStates with
  | [] => (t, current)
  | next :: rest => ({ pastStates := current :: t.pastStates, futureStates := rest }, next)

/-- `syncAfterTemporalChange` (`store/annotation-store.ts`): drop selected
ids that no longer exist in the restored elements array, and re-sync
`project.elements` / `project.updatedAt`. -/
def syncAfterTemporalChange (now : String) (s : AnnotationState) :
    AnnotationState :=
  let elementIds := s.elements.map (fun e => e.id)
  let validSelection := s.selection.selectedIds.filter (fun id => elementIds.contains id)
  let s1 :=
    if validSelection.length ≠ s.selection.selectedIds.length then
      { s with selection := { selectedIds := validSelection } }
    else s
  match s1.project with
  | some p =>
      { s1 with project := some { p with elements := s1.elements, updatedAt := now } }
  | none => s1

/-- `undoAnnotation` (`store/annotation-store.ts`): no-op on empty history,
otherwise restore the previous snapshot and run `syncAfterTemporalChange`.
The zundo time-travel step itself is modelled from the spec
(`temporalUndo`). -/
def undoAnnotationAction (now : String) (t : TemporalState)
    (s : AnnotationState) : TemporalState × AnnotationState :=
  if t.pastStates.length = 0 then (t, s)
  else
    let r := temporalUndo t s.elements
    (r.1, syncAfterTemporalChange now { s with elements := r.2 })

/-- `redoAnnotation` (`store/annotation-store.ts`): no-op on empty future,
otherwise restore the next snapshot and run `syncAfterTemporalChange`. -/
def redoAnnotationAction (now : String) (t : TemporalState)
    (s : AnnotationState) : TemporalState × AnnotationState :=
  if t.futureStates.length = 0 then (t, s)
  else
    let r := temporalRedo t s.elements
    (r.1, syncAfterTemporalChange now { s with elements := r.2 })

/-- `SnapTarget.type` (`hooks/use-konva-snap.ts`). -/
inductive SnapTargetType where
  | edge
  | center
  | bound
deriving DecidableEq, Repr

/-- `SnapTarget` (`hooks/use-konva-snap.ts`). -/
structure SnapTarget where
  value : ℚ
  ttype : SnapTargetType
deriving DecidableEq, Repr

/-- The local `BoundingBox` interface of `hooks/use-konva-snap.ts` (the
moving box passed to `getSnapResult`; only `w` and `h` are read). -/
structure MovingBox where
  x : ℚ
  y : ℚ
  w : ℚ
  h : ℚ
deriving DecidableEq, Repr

/-- `bestXSnap` / `bestYSnap` entries: `value` is the snapped coordinate
(`target.value + offset`), and the field the source calls `offset` stores the
raw target coordinate used for the guideline. -/
structure BestSnap where
  value : ℚ
  offset : ℚ
deriving DecidableEq, Repr

/-- Guideline direction. -/
inductive GuidelineType where
  | vertical
  | horizontal
deriving DecidableEq, Repr

/-- A move-snap guideline `{type, position, start, end}` (`end` is a Lean
keyword; the field is named `stop`). -/
structure MoveGuideline where
  gtype : GuidelineType
  position : ℚ
  start : ℚ
  stop : ℚ
deriving DecidableEq, Repr

/-- Return value of `getSnapResult` plus the guidelines it writes to the UI
store via `setActiveGuidelines`. -/
structure SnapResult where
  x : ℚ
  y : ℚ
  guidelines : List MoveGuideline
deriving DecidableEq, Repr

/-- The vertical (x-position) target list built by `getSnapResult`: for every
non-excluded element its left edge, right edge and horizontal center, then
the image bounds 0, width/2, width. -/
def moveVerticalTargets (elements : List EditorElement)
    (excludeIds : List ElementId) (imageWidth : ℚ) : List SnapTarget :=
  (elements.filter (fun e => !(excludeIds.contains e.id))).flatMap (fun e =>
    [{ value := e.bbox.pixel.x, ttype := SnapTargetType.edge },
     { value := e.bbox.pixel.x + e.bbox.pixel.w, ttype := SnapTargetType.edge },
     { value := e.bbox.pixel.x + e.bbox.pixel.w / 2, ttype := SnapTargetType.center }])
  ++ [{ value := 0, ttype := SnapTargetType.bound },
      { value := imageWidth / 2, ttype := SnapTargetType.bound },
      { value := imageWidth, ttype := SnapTargetType.bound }]

/-- The horizontal (y-position) target list built by `getSnapResult`. -/
def moveHorizontalTargets (elements : List EditorElement)
    (excludeIds : List ElementId) (imageHeight : ℚ) : List SnapTarget :=
  (elements.filter (fun e => !(excludeIds.contains e.id))).flatMap (fun e =>
    [{ value := e.bbox.pixel.y, ttype := SnapTargetType.edge },
     { value := e.bbox.pixel.y + e.bbox.pixel.h, ttype := SnapTargetType.edge },
     { value := e.bbox.pixel.y + e.bbox.pixel.h / 2, ttype := SnapTargetType.center }])
  ++ [{ value := 0, ttype := SnapTargetType.bound },
      { value := imageHeight / 2, ttype := SnapTargetType.bound },
      { value := imageHeight, ttype := SnapTargetType.bound }]

/-- The `xPoints` of `getSnapResult` paired with the offset the loop applies
for that check-point index (`i = 0` leading edge → 0, `i = 1` trailing edge →
`-boxW`, `i = 2` center → `-boxW / 2`); without a moving box only the point
itself is checked. -/
def xCheckPoints (point : Point) (movingBox : Option MovingBox) :
    List (ℚ × ℚ) :=
  match movingBox with
  | some b => [(point.x, 0), (point.x + b.w, -b.w), (point.x + b.w / 2, (-b.w) / 2)]
  | none => [(point.x, 0)]

/-- The `yPoints` of `getSnapResult` paired with their offsets. -/
def yCheckPoints (point : Point) (movingBox : Option MovingBox) :
    List (ℚ × ℚ) :=
  match movingBox with
  | some b => [(point.y, 0), (point.y + b.h, -b.h), (point.y + b.h / 2, (-b.h) / 2)]
  | none => [(point.y, 0)]

/-- The double loop of `getSnapResult` over check-points (outer) and targets
(inner), keeping the strictly closest match so far; the running minimum
starts at the snap threshold. -/
def findBestSnap (checkPoints : List (ℚ × ℚ)) (targets : List SnapTarget) :
    Option BestSnap × ℚ :=
  checkPoints.foldl (fun acc cp =>
    targets.foldl (fun acc2 target =>
      let distance := |cp.1 - target.value|
      if distance < acc2.2 then
        (some { value := target.value + cp.2, offset := target.value }, distance)
      else acc2) acc)
    (none, snapConfig.threshold)

/-- `getSnapResult` (`hooks/use-konva-snap.ts`): per-axis best snap plus the
guidelines emitted for matched axes. -/
def getSnapResult (point : Point) (elements : List EditorElement)
    (excludeIds : List ElementId) (imageWidth imageHeight : ℚ)
    (movingBox : Option MovingBox) : SnapResult :=
  let verticalTargets := moveVerticalTargets elements excludeIds imageWidth
  let horizontalTargets := moveHorizontalTargets elements excludeIds imageHeight
  let bestXSnap := (findBestSnap (xCheckPoints point movingBox) verticalTargets).1
  let bestYSnap := (findBestSnap (yCheckPoints point movingBox) horizontalTargets).1
  { x := match bestXSnap with
      | some b => b.value
      | none => point.x
    y := match bestYSnap with
      | some b => b.value
      | none => point.y
    guidelines :=
      (match bestXSnap with
        | some b => [{ gtype := GuidelineType.vertical, position := b.offset, start := 0, stop := imageHeight }]
        | none => [])
      ++ (match bestYSnap with
        | some b => [{ gtype := GuidelineType.horizontal, position := b.offset, start := 0, stop := imageWidth }]
        | none => []) }

/-- The four edge values passed to `getResizeSnapResult`. -/
structure ResizeEdges where
  left : ℚ
  right : ℚ
  top : ℚ
  bottom : ℚ
deriving DecidableEq, Repr

/-- A resize-snap guideline `{type, position}`. -/
structure ResizeGuideline where
  gtype : GuidelineType
  position : ℚ
deriving DecidableEq, Repr

/-- Return value of `getResizeSnapResult`. -/
structure ResizeSnapResult where
  snapLeft : Option ℚ
  snapRight : Option ℚ
  snapTop : Option ℚ
  snapBottom : Option ℚ
  guidelines : List ResizeGuideline
deriving DecidableEq, Repr

/-- The scalar vertical target list of `getResizeSnapResult`: image bounds
first (0, width/2, width), then per non-excluded element in list order its
left edge, right edge and horizontal center. -/
def resizeVerticalTargets (elements : List EditorElement)
    (excludeId : ElementId) (imageWidth : ℚ) : List ℚ :=
  [0, imageWidth / 2, imageWidth]
  ++ (elements.filter (fun e => e.id != excludeId)).flatMap (fun e =>
    [e.bbox.pixel.x, e.bbox.pixel.x + e.bbox.pixel.w, e.bbox.pixel.x + e.bbox.pixel.w / 2])

/-- The scalar horizontal target list of `getResizeSnapResult`. -/
def resizeHorizontalTargets (elements : List EditorElement)
    (excludeId : ElementId) (imageHeight : ℚ) : List ℚ :=
  [0, imageHeight / 2, imageHeight]
  ++ (elements.filter (fun e => e.id != excludeId)).flatMap (fun e =>
    [e.bbox.pixel.y, e.bbox.pixel.y + e.bbox.pixel.h, e.bbox.pixel.y + e.bbox.pixel.h / 2])

/-- One of the two sequential loops of `getResizeSnapResult`: scan the target
list once, latching the first target within threshold for each of the two
edges independently and pushing one guideline per latched edge. -/
def resizeScanPair (gtype : GuidelineType) (e1 e2 threshold : ℚ) :
    List ℚ → Option ℚ × Option ℚ × List ResizeGuideline →
    Option ℚ × Option ℚ × List ResizeGuideline
  | [], acc => acc
  | target :: rest, (snap1, snap2, gl) =>
      let step1 :=
        if snap1 = none ∧ |e1 - target| < threshold then
          (some target, gl ++ [{ gtype := gtype, position := target }])
        else (snap1, gl)
      let step2 :=
        if snap2 = none ∧ |e2 - target| < threshold then
          (some target, step1.2 ++ [{ gtype := gtype, position := target }])
        else (snap2, step1.2)
      resizeScanPair gtype e1 e2 threshold rest (step1.1, step2.1, step2.2)

/-- `getResizeSnapResult` (`hooks/use-konva-snap.ts`): per-edge first-match
snapping against the scalar target lists. -/
def getResizeSnapResult (edges : ResizeEdges) (elements : List EditorElement)
    (excludeId : ElementId) (imageWidth imageHeight : ℚ) : ResizeSnapResult :=
  let verticalTargets := resizeVerticalTargets elements excludeId imageWidth
  let horizontalTargets := resizeHorizontalTargets elements excludeId imageHeight
  let threshold := snapConfig.threshold
  let v := resizeScanPair GuidelineType.vertical edges.left edges.right threshold
    verticalTargets (none, none, [])
  let h := resizeScanPair GuidelineType.horizontal edges.top edges.bottom threshold
    horizontalTargets (none, none, v.2.2)
  { snapLeft := v.1
    snapRight := v.2.1
    snapTop := h.1
    snapBottom := h.2.1
    guidelines := h.2.2 }

/-! ## Specification-side definitions and demo inputs -/

/-- The claim's consistency invariant: `norm = pixel / imageSize`
componentwise. -/
def bboxConsistent (b : BBox) (imageSize : ImageSize) : Prop :=
  b.norm.x = b.pixel.x / imageSize.w ∧
  b.norm.y = b.pixel.y / imageSize.h ∧
  b.norm.w = b.pixel.w / imageSize.w ∧
  b.norm.h = b.pixel.h / imageSize.h

/-- The preconditions under which `finishDrawing` creates an element:
drawing active with both points set, project loaded, and both dimensions of
the drawn rectangle at least the 10px minimum annotation size. -/
def finishDrawingOk (s : AnnotationState) : Prop :=
  s.drawing.isDrawing = true ∧
  ∃ sp cp P, s.drawing.startPoint = some sp ∧
    s.drawing.currentPoint = some cp ∧
    s.project = some P ∧
    canvasConfig.minAnnotationSize ≤ |cp.x - sp.x| ∧
    canvasConfig.minAnnotationSize ≤ |cp.y - sp.y|

/-- A minimal loaded project over an 800×600 image with no elements. -/
def demoProject : Project :=
  { id := "p", name := "Demo", sourceFileName := "shot.png", imageUrl := "u"
    imageWidth := 800, imageHeight := 600, elements := []
    createdAt := "t0", updatedAt := "t0" }

/-- The store state after loading `demoProject` and dragging a draw gesture
from (0,0) to (50,50). -/
def drawDemoState : AnnotationState :=
  updateDrawing { x := 50, y := 50 }
    (startDrawing { x := 0, y := 0 } (loadProject demoProject initialState))

/-- A fixed bounding box used by the concrete scenarios. -/
def demoBBox : BBox :=
  createBBox { x := 0, y := 0, w := 50, h := 50 } { w := 800, h := 600 }

/-- `demoProject` loaded and one factory-created element `"a"` added. -/
def demoState1 : AnnotationState :=
  addElement (createElement "a" "t1" { bbox := demoBBox, existingElements := [] })
    "t1" (loadProject demoProject initialState)

/-- `demoState1` with a second factory-created element `"b"` added; its
elements carry displayOrder 0 and 1. -/
def demoState2 : AnnotationState :=
  addElement
    (createElement "b" "t2" { bbox := demoBBox, existingElements := demoState1.elements })
    "t2" demoState1

/-- A factory-created element `"e1"` over `demoBBox` (pixel (0,0) 50×50). -/
def pasteDemoElement : EditorElement :=
  createElement "e1" "t0" { bbox := demoBBox, existingElements := [] }

/-- `demoProject` loaded, `pasteDemoElement` added, selected, and copied to
the clipboard. -/
def pasteDemoState : AnnotationState :=
  copySelectedElements
    (selectElement "e1" false
      (addElement pasteDemoElement "t0" (loadProject demoProject initialState)))

/-- The flattened move-snap candidate list in the loops' iteration order
(check-point major, target minor): each candidate pairs the distance from the
check-point to the target with the `BestSnap` the loop would store for it. -/
def snapFullCandidates (checkPoints : List (ℚ × ℚ))
    (targets : List SnapTarget) : List (ℚ × BestSnap) :=
  checkPoints.flatMap (fun cp => targets.map (fun t =>
    ((|cp.1 - t.value|, { value := t.value + cp.2, offset := t.value }) : ℚ × BestSnap)))

/-- The claim's candidate list for one axis: in iteration order, the distance
from each check-point to each target together with the snapped coordinate
(target value adjusted by that check-point's offset). -/
def snapCandidates (checkPoints : List (ℚ × ℚ))
    (targets : List SnapTarget) : List (ℚ × ℚ) :=
  checkPoints.flatMap (fun cp => targets.map (fun t =>
    (|cp.1 - t.value|, t.value + cp.2)))

/-- The global minimum distance over the candidates, the 8px threshold
included as the initial value. -/
def snapMinDistance (cands : List (ℚ × ℚ)) : ℚ :=
  cands.foldl (fun m c => min m c.1) snapConfig.threshold

/-- The claim's per-axis snap: if the global minimum distance is strictly
below the threshold, the snapped coordinate of the first candidate attaining
it (ties resolve to the first in iteration order); otherwise the original
input coordinate. -/
def snapAxisSpec (p : ℚ) (cands : List (ℚ × ℚ)) : ℚ :=
  if snapMinDistance cands < snapConfig.threshold then
    ((cands.find? (fun c => decide (c.1 = snapMinDistance cands))).map
      (fun c => c.2)).getD p
  else p

/-- Zero or one resize guideline from an optional matched coordinate. -/
def guideOpt (gtype : GuidelineType) : Option ℚ → List ResizeGuideline
  | some t => [{ gtype := gtype, position := t }]
  | none => []

/-- The guidelines a single edge contributes during a resize scan, given the
already-latched value `s` at scan start and the first in-threshold target
`found`: one guideline when the edge was still unmatched and a target is
found, none otherwise. -/
def contribGuide (gtype : GuidelineType) (s : Option ℚ) (found : Option ℚ) :
    List ResizeGuideline :=
  match s with
  | none => guideOpt gtype found
  | some _ => []

/-- The list of elements built by `pasteElements`' loop for a store state
with project `P`: one factory-created element per clipboard entry. -/
def pastedElements (P : Project) (newIds : List ElementId) (now : String)
    (s : AnnotationState) : List EditorElement :=
  pasteLoop { width := P.imageWidth, height := P.imageHeight } now
    s.elements s.clipboard.elements newIds

/-! ## Helper lemmas -/

/-- `List.foldl max a l` is an element of `a :: l` and an upper bound of it. -/
lemma foldl_max_spec (l : List ℚ) : ∀ a : ℚ,
    (l.foldl max a = a ∨ l.foldl max a ∈ l) ∧
    a ≤ l.foldl max a ∧ ∀ b ∈ l, b ≤ l.foldl max a := by
  induction l with
  | nil => intro a; simp
  | cons x rest ih =>
    intro a
    obtain ⟨h1, h2, h3⟩ := ih (max a x)
    rw [List.foldl_cons]
    refine ⟨?_, le_trans (le_max_left a x) h2, ?_⟩
    · rcases h1 with h | h
      · rcases max_choice a x with he | he
        · left; rw [h, he]
        · right; rw [h, he]; exact List.mem_cons_self x rest
      · right; exact List.mem_cons_of_mem x h
    · intro b hb
      rcases List.mem_cons.mp hb with rfl | hb
      · exact le_trans (le_max_right a b) h2
      · exact h3 b hb

/-- `generateSerialNumber` on a non-empty list returns one plus a maximum of
the serial numbers present. -/
lemma generateSerialNumber_spec (l : List EditorElement) (h : l ≠ []) :
    ∃ m, m ∈ l.map (fun e => e.serialNumber) ∧
      (∀ q ∈ l.map (fun e => e.serialNumber), q ≤ m) ∧
      generateSerialNumber l = m + 1 := by
  cases l with
  | nil => exact absurd rfl h
  | cons e rest =>
    refine ⟨(rest.map (fun el => el.serialNumber)).foldl max e.serialNumber, ?_, ?_, ?_⟩
    · obtain ⟨h1, _, _⟩ := foldl_max_spec (rest.map (fun el => el.serialNumber)) e.serialNumber
      rcases h1 with h1 | h1
      · rw [List.map_cons, h1]; exact List.mem_cons_self _ _
      · rw [List.map_cons]; exact List.mem_cons_of_mem _ h1
    · obtain ⟨_, h2, h3⟩ := foldl_max_spec (rest.map (fun el => el.serialNumber)) e.serialNumber
      intro q hq
      rw [List.map_cons, List.mem_cons] at hq
      rcases hq with rfl | hq
      · exact h2
      · exact h3 q hq
    · simp [generateSerialNumber]

/-- Every serial number in the list is strictly below the generated one. -/
lemma serial_lt_generated (l : List EditorElement) :
    ∀ e ∈ l, e.serialNumber < generateSerialNumber l := by
  intro e he
  have hne : l ≠ [] := by rintro rfl; exact absurd he (List.not_mem_nil e)
  obtain ⟨m, _, hub, heq⟩ := generateSerialNumber_spec l hne
  have : e.serialNumber ≤ m := hub e.serialNumber (List.mem_map_of_mem _ he)
  rw [heq]; linarith

/-! ## C9 — geometry round-trip and BBox consistency -/

/-- C9: for every pixel rectangle and strictly positive image size,
multiplying each component of `pixelToNorm pixel imageSize` back by the
corresponding image dimension recovers the pixel rectangle exactly; every
`BBox` produced by `createBBox` or by `updateBBoxPixel` (hence by any
sequence of `updateBBoxPixel` calls) satisfies `norm = pixel / imageSize`,
where `updateBBoxPixel`'s pixel is the old pixel merged with the partial
update. -/
theorem geometry_roundtrip_and_consistency :
    (∀ (pixel : PixelCoord) (imageSize : ImageSize),
      0 < imageSize.w → 0 < imageSize.h →
      (pixelToNorm pixel imageSize).x * imageSize.w = pixel.x ∧
      (pixelToNorm pixel imageSize).y * imageSize.h = pixel.y ∧
      (pixelToNorm pixel imageSize).w * imageSize.w = pixel.w ∧
      (pixelToNorm pixel imageSize).h * imageSize.h = pixel.h)
    ∧ (∀ (pixel : PixelCoord) (imageSize : ImageSize),
      bboxConsistent (createBBox pixel imageSize) imageSize)
    ∧ (∀ (bbox : BBox) (u : PixelUpdate) (imageSize : ImageSize),
      (updateBBoxPixel bbox u imageSize).pixel = mergePixel bbox.pixel u ∧
      bboxConsistent (updateBBoxPixel bbox u imageSize) imageSize) := by
  refine ⟨?_, ?_, ?_⟩
  · intro pixel imageSize hw hh
    refine ⟨?_, ?_, ?_, ?_⟩ <;>
      simp [pixelToNorm, div_mul_cancel₀, ne_of_gt hw, ne_of_gt hh]
  · intro pixel imageSize
    exact ⟨rfl, rfl, rfl, rfl⟩
  · intro bbox u imageSize
    exact ⟨rfl, rfl, rfl, rfl, rfl⟩

/-- C9 witness: the round-trip at `pixel = (100, 100, 50, 40)` inside an
800×600 image. -/
theorem geometry_roundtrip_witness :
    (pixelToNorm { x := 100, y := 100, w := 50, h := 40 } { w := 800, h := 600 }).x * 800 = 100 ∧
    (pixelToNorm { x := 100, y := 100, w := 50, h := 40 } { w := 800, h := 600 }).h * 600 = 40 := by
  have h := geometry_roundtrip_and_consistency.1
    { x := 100, y := 100, w := 50, h := 40 } { w := 800, h := 600 }
    (by norm_num) (by norm_num)
  exact ⟨h.1, h.2.2.2⟩

/-! ## C3 — serial number generation -/

/-- C3: `createElement` assigns serial number 1 on an empty element list and
`m + 1` where `m` is the maximum existing serial number otherwise; in
particular for serials `{1..n}` the new serial is `n + 1`. -/
theorem createElement_serialNumber (newId : ElementId) (now : String)
    (options : CreateElementOptions) :
    (options.existingElements = [] →
      (createElement newId now options).serialNumber = 1)
    ∧ (options.existingElements ≠ [] →
      ∃ m, m ∈ options.existingElements.map (fun e => e.serialNumber) ∧
        (∀ q ∈ options.existingElements.map (fun e => e.serialNumber), q ≤ m) ∧
        (createElement newId now options).serialNumber = m + 1)
    ∧ (∀ n : ℕ,
      options.existingElements.map (fun e => e.serialNumber)
          = (List.range n).map (fun (i : ℕ) => (i : ℚ) + 1) →
      (createElement newId now options).serialNumber = (n : ℚ) + 1) := by
  refine ⟨?_, ?_, ?_⟩
  · intro hnil
    simp [createElement, generateSerialNumber, hnil]
  · intro hne
    exact generateSerialNumber_spec options.existingElements hne
  · intro n hmap
    cases n with
    | zero =>
      have hnil : options.existingElements = [] := by
        simpa using congrArg List.length hmap
      simp [createElement, generateSerialNumber, hnil]
    | succ k =>
      have hne : options.existingElements ≠ [] := by
        intro h
        rw [h] at hmap
        have := congrArg List.length hmap
        simp at this
      obtain ⟨m, hmem, hub, heq⟩ := generateSerialNumber_spec options.existingElements hne
      have hm_le : m ≤ (k + 1 : ℕ) := by
        rw [hmap] at hmem
        obtain ⟨i, hi, rfl⟩ := List.mem_map.mp hmem
        have : i < k + 1 := List.mem_range.mp hi
        have : (i : ℚ) ≤ (k : ℚ) := by exact_mod_cast Nat.lt_succ_iff.mp this
        push_cast
        linarith
      have hn_mem : ((k + 1 : ℕ) : ℚ) ∈ options.existingElements.map (fun e => e.serialNumber) := by
        rw [hmap]
        refine List.mem_map.mpr ⟨k, List.mem_range.mpr (Nat.lt_succ_self k), ?_⟩
        push_cast; ring
      have hn_le : ((k + 1 : ℕ) : ℚ) ≤ m := hub _ hn_mem
      have : m = ((k + 1 : ℕ) : ℚ) := le_antisymm hm_le hn_le
      show generateSerialNumber options.existingElements = _
      rw [heq, this]

/-- C3 witness: three elements with serials 1, 2, 3 yield serial 4; an empty
list yields serial 1. -/
theorem createElement_serialNumber_witness :
    (createElement "d" "t"
      { bbox := createBBox { x := 0, y := 0, w := 1, h := 1 } { w := 1, h := 1 }
        existingElements :=
          [{ id := "a", label := "", bbox := createBBox { x := 0, y := 0, w := 1, h := 1 } { w := 1, h := 1 },
             serialNumber := 1, displayOrder := 0, createdAt := "t", updatedAt := "t" },
           { id := "b", label := "", bbox := createBBox { x := 0, y := 0, w := 1, h := 1 } { w := 1, h := 1 },
             serialNumber := 2, displayOrder := 1, createdAt := "t", updatedAt := "t" },
           { id := "c", label := "", bbox := createBBox { x := 0, y := 0, w := 1, h := 1 } { w := 1, h := 1 },
             serialNumber := 3, displayOrder := 2, createdAt := "t", updatedAt := "t" }] }).serialNumber = 4 ∧
    (createElement "a" "t"
      { bbox := createBBox { x := 0, y := 0, w := 1, h := 1 } { w := 1, h := 1 }
        existingElements := [] }).serialNumber = 1 := by
  constructor
  · have h := (createElement_serialNumber "d" "t"
      { bbox := createBBox { x := 0, y := 0, w := 1, h := 1 } { w := 1, h := 1 }
        existingElements :=
          [{ id := "a", label := "", bbox := createBBox { x := 0, y := 0, w := 1, h := 1 } { w := 1, h := 1 },
             serialNumber := 1, displayOrder := 0, createdAt := "t", updatedAt := "t" },
           { id := "b", label := "", bbox := createBBox { x := 0, y := 0, w := 1, h := 1 } { w := 1, h := 1 },
             serialNumber := 2, displayOrder := 1, createdAt := "t", updatedAt := "t" },
           { id := "c", label := "", bbox := createBBox { x := 0, y := 0, w := 1, h := 1 } { w := 1, h := 1 },
             serialNumber := 3, displayOrder := 2, createdAt := "t", updatedAt := "t" }] }).2.2 3
    rw [h ?side]
    · norm_num
    case side =>
      simp [List.range_succ]
      norm_num
  · exact (createElement_serialNumber "a" "t"
      { bbox := createBBox { x := 0, y := 0, w := 1, h := 1 } { w := 1, h := 1 }
        existingElements := [] }).1 rfl

/-! ## C10 — implicit no-op on unknown id -/

/-- C10: when no element carries the given id, `updateElement` leaves the
whole store state unchanged (no `project.updatedAt` re-stamp), and
`moveElement` likewise; `moveElement` is also a no-op when no project is
loaded. -/
theorem updateElement_moveElement_noop (id : ElementId)
    (updates : ElementUpdate) (deltaX deltaY : ℚ) (now : String)
    (s : AnnotationState) :
    ((∀ e ∈ s.elements, e.id ≠ id) →
      updateElement id updates now s = s ∧
      moveElement id deltaX deltaY now s = s)
    ∧ (s.project = none → moveElement id deltaX deltaY now s = s) := by
  constructor
  · intro habs
    constructor
    · have hany : s.elements.any (fun e => e.id == id) = false := by
        rw [List.any_eq_false]
        intro e he
        simpa using habs e he
      rw [updateElement, hany]
      simp
    · have hfind : s.elements.find? (fun e => e.id == id) = none := by
        rw [List.find?_eq_none]
        intro e he
        simpa using habs e he
      rw [moveElement, hfind]
  · intro hproj
    rw [moveElement, hproj]
    cases s.elements.find? (fun e => e.id == id) <;> rfl

/-- C10 witness: a store holding one element `"a"`; acting on the absent id
`"b"` changes nothing, and `moveElement` on the empty initial store (no
project) changes nothing. -/
theorem updateElement_moveElement_noop_witness :
    (updateElement "b" {} "t2"
        { initialState with
          elements := [{ id := "a", label := "", bbox := createBBox { x := 0, y := 0, w := 1, h := 1 } { w := 1, h := 1 },
                         serialNumber := 1, displayOrder := 0, createdAt := "t", updatedAt := "t" }] }
      = { initialState with
          elements := [{ id := "a", label := "", bbox := createBBox { x := 0, y := 0, w := 1, h := 1 } { w := 1, h := 1 },
                         serialNumber := 1, displayOrder := 0, createdAt := "t", updatedAt := "t" }] })
    ∧ moveElement "b" 5 5 "t2" initialState = initialState := by
  constructor
  · exact ((updateElement_moveElement_noop "b" {} 5 5 "t2" _).1
      (by intro e he; simp at he; rw [he]; decide)).1
  · exact (updateElement_moveElement_noop "b" {} 5 5 "t2" initialState).2 rfl

/-! ## C5 — finishDrawing creates an element iff its preconditions hold -/

/-- `syncElementsToProject` only touches the project slice. -/
lemma syncElementsToProject_proj (now : String) (s : AnnotationState) :
    (syncElementsToProject now s).drawing = s.drawing ∧
    (syncElementsToProject now s).elements = s.elements ∧
    (syncElementsToProject now s).selection = s.selection ∧
    (syncElementsToProject now s).viewport = s.viewport ∧
    (syncElementsToProject now s).clipboard = s.clipboard := by
  rw [syncElementsToProject]
  cases s.project <;> exact ⟨rfl, rfl, rfl, rfl, rfl⟩

/-- C5: `finishDrawing` always resets the drawing state; when its
preconditions hold it returns exactly the factory-built element from the
normalized rectangle, appends it, and makes it the sole selection; otherwise
it returns `null` and leaves `elements` and `selection` unchanged. -/
theorem finishDrawing_spec (newId : ElementId) (now : String)
    (s : AnnotationState) :
    ((finishDrawing newId now s).2.drawing = initialDrawingState)
    ∧ (∀ sp cp P,
        s.drawing = { isDrawing := true, startPoint := some sp, currentPoint := some cp } →
        s.project = some P →
        canvasConfig.minAnnotationSize ≤ |cp.x - sp.x| →
        canvasConfig.minAnnotationSize ≤ |cp.y - sp.y| →
        (finishDrawing newId now s).1 =
          some (createElement newId now
            { bbox := createBBox
                { x := min sp.x cp.x, y := min sp.y cp.y
                  w := |cp.x - sp.x|, h := |cp.y - sp.y| }
                { w := P.imageWidth, h := P.imageHeight }
              existingElements := s.elements }) ∧
        (finishDrawing newId now s).2.elements =
          s.elements ++ [createElement newId now
            { bbox := createBBox
                { x := min sp.x cp.x, y := min sp.y cp.y
                  w := |cp.x - sp.x|, h := |cp.y - sp.y| }
                { w := P.imageWidth, h := P.imageHeight }
              existingElements := s.elements }] ∧
        (finishDrawing newId now s).2.selection.selectedIds = [newId])
    ∧ (¬ finishDrawingOk s →
        (finishDrawing newId now s).1 = none ∧
        (finishDrawing newId now s).2.elements = s.elements ∧
        (finishDrawing newId now s).2.selection = s.selection) := by
  refine ⟨?_, ?_, ?_⟩
  · rw [finishDrawing]
    split
    · dsimp only
      split
      · rfl
      · rw [(syncElementsToProject_proj now _).1]
    · rfl
  · intro sp cp P hdraw hproj hw hh
    rw [finishDrawing, hdraw, hproj]
    simp only [getImageSize]
    rw [if_neg]
    · refine ⟨rfl, ?_, ?_⟩
      · exact (syncElementsToProject_proj now _).2.1
      · rw [(syncElementsToProject_proj now _).2.2.1]
        rfl
    · push_neg
      exact ⟨hw, hh⟩
  · intro hnot
    rw [finishDrawing]
    split
    · next sp cp wh hb hsp hcp hwh =>
      rcases hP : s.project with _ | P
      · rw [hP] at hwh; exact absurd hwh (by simp [getImageSize])
      rw [if_pos]
      · exact ⟨rfl, rfl, rfl⟩
      · by_contra hc
        push_neg at hc
        exact hnot ⟨hb, sp, cp, P, hsp, hcp, hP, hc.1, hc.2⟩
    · exact ⟨rfl, rfl, rfl⟩

/-- C5 witness: finishing the (0,0)→(50,50) draw creates one element with id
`"a"`, appends it to the empty element list, and selects exactly it. -/
theorem finishDrawing_spec_witness :
    ((finishDrawing "a" "t1" drawDemoState).1).isSome = true ∧
    ((finishDrawing "a" "t1" drawDemoState).2.elements).length = 1 ∧
    (finishDrawing "a" "t1" drawDemoState).2.selection.selectedIds = ["a"] := by
  obtain ⟨h1, h2, h3⟩ :=
    (finishDrawing_spec "a" "t1" drawDemoState).2.1
      { x := 0, y := 0 } { x := 50, y := 50 } demoProject rfl rfl
      (by rw [show |(50:ℚ) - 0| = 50 by norm_num]; norm_num [canvasConfig])
      (by rw [show |(50:ℚ) - 0| = 50 by norm_num]; norm_num [canvasConfig])
  refine ⟨?_, ?_, h3⟩
  · rw [h1]; rfl
  · rw [h2]; rfl

/-! ## pasteLoop structure (shared by C4 and C6) -/

/-- Unfolding of `pasteLoop` on a cons. -/
lemma pasteLoop_cons (imageSize : WH) (now : String)
    (elements : List EditorElement) (ce : EditorElement)
    (rest : List EditorElement) (i : ElementId) (ids : List ElementId) :
    pasteLoop imageSize now elements (ce :: rest) (i :: ids) =
      createElement i now
        { bbox := createBBox
            { x := ce.bbox.pixel.x + 20, y := ce.bbox.pixel.y + 20
              w := ce.bbox.pixel.w, h := ce.bbox.pixel.h }
            { w := imageSize.width, h := imageSize.height }
          label := some ce.label, component := ce.component
          notes := ce.notes, color := ce.color
          existingElements := elements } ::
      pasteLoop imageSize now
        (elements ++ [createElement i now
          { bbox := createBBox
              { x := ce.bbox.pixel.x + 20, y := ce.bbox.pixel.y + 20
                w := ce.bbox.pixel.w, h := ce.bbox.pixel.h }
              { w := imageSize.width, h := imageSize.height }
            label := some ce.label, component := ce.component
            notes := ce.notes, color := ce.color
            existingElements := elements }]) rest ids := rfl

/-- Structural facts about the paste loop: one element per clipboard entry,
ids taken from the supply in order, dense displayOrder continuing from the
existing length, per-entry field transfer with the +20px offset, and serial
numbers strictly above every existing one and strictly increasing. -/
lemma pasteLoop_spec (imageSize : WH) (now : String) :
    ∀ (cbs : List EditorElement) (ids : List ElementId)
      (elements : List EditorElement), cbs.length ≤ ids.length →
      (pasteLoop imageSize now elements cbs ids).length = cbs.length ∧
      (pasteLoop imageSize now elements cbs ids).map (fun e => e.id)
        = ids.take cbs.length ∧
      (pasteLoop imageSize now elements cbs ids).map (fun e => e.displayOrder)
        = (List.range' elements.length cbs.length).map (fun (i : ℕ) => (i : ℚ)) ∧
      List.Forall₂ (fun ce ne =>
        ne.bbox.pixel = { x := ce.bbox.pixel.x + 20, y := ce.bbox.pixel.y + 20,
                          w := ce.bbox.pixel.w, h := ce.bbox.pixel.h } ∧
        ne.label = ce.label ∧ ne.component = ce.component ∧
        ne.notes = ce.notes ∧ ne.color = ce.color)
        cbs (pasteLoop imageSize now elements cbs ids) ∧
      (∀ ne ∈ pasteLoop imageSize now elements cbs ids,
        ∀ e ∈ elements, e.serialNumber < ne.serialNumber) ∧
      (pasteLoop imageSize now elements cbs ids).Pairwise
        (fun a b => a.serialNumber < b.serialNumber) := by
  intro cbs
  induction cbs with
  | nil =>
    intro ids elements _
    simp [pasteLoop]
  | cons ce rest ih =>
    intro ids elements h
    cases ids with
    | nil => simp at h
    | cons i ids' =>
      have hlen : rest.length ≤ ids'.length := by simpa using h
      rw [pasteLoop_cons]
      obtain ⟨ih1, ih2, ih3, ih4, ih5, ih6⟩ := ih ids' (elements ++ [createElement i now
        { bbox := createBBox
            { x := ce.bbox.pixel.x + 20, y := ce.bbox.pixel.y + 20
              w := ce.bbox.pixel.w, h := ce.bbox.pixel.h }
            { w := imageSize.width, h := imageSize.height }
          label := some ce.label, component := ce.component
          notes := ce.notes, color := ce.color
          existingElements := elements }]) hlen
      refine ⟨?_, ?_, ?_, ?_, ?_, ?_⟩
      · simp [ih1]
      · rw [List.map_cons, ih2, List.length_cons, List.take_succ_cons]
        rfl
      · rw [List.map_cons, ih3, List.length_cons, List.range'_succ, List.map_cons]
        simp [createElement]
      · exact List.Forall₂.cons ⟨rfl, rfl, rfl, rfl, rfl⟩ ih4
      · intro ne hne e he
        rcases List.mem_cons.mp hne with rfl | hne
        · exact serial_lt_generated elements e he
        · exact ih5 ne hne e (List.mem_append_left _ he)
      · refine List.Pairwise.cons ?_ ih6
        intro b hb
        exact ih5 b hb _ (List.mem_append_right _ (List.mem_singleton_self _))

/-- Splitting a casted index range. -/
lemma range_cast_append (n k : ℕ) :
    (List.range (n + k)).map (fun (i : ℕ) => (i : ℚ))
      = (List.range n).map (fun (i : ℕ) => (i : ℚ))
        ++ (List.range' n k).map (fun (i : ℕ) => (i : ℚ)) := by
  rw [List.range_add, List.map_append, List.range'_eq_map_range, List.map_map]

/-! ## C4 — displayOrder invariant (corrected) -/

/-- C4 counterexample: from the empty loaded project, two factory creations
followed by `deleteElement` of the first element (all element-mutating store
actions of the claim) leave a state whose `displayOrder` values are `[1]`,
not the claimed `{0, ..., n-1} = {0}` — `deleteElement` does not renumber. -/
theorem displayOrder_counterexample :
    (deleteElement "a" "t3" demoState2).elements.map (fun e => e.displayOrder) = [1]
    ∧ (deleteElement "a" "t3" demoState2).elements.map (fun e => e.displayOrder)
      ≠ (List.range (deleteElement "a" "t3" demoState2).elements.length).map
          (fun (i : ℕ) => (i : ℚ)) := by
  have h : (deleteElement "a" "t3" demoState2).elements.map (fun e => e.displayOrder) = [1] := by
    simp [demoState2, demoState1, deleteElement, addElement, createElement,
      loadProject, initialState, syncElementsToProject, demoProject,
      generateSerialNumber, demoBBox]
  have hlen : (deleteElement "a" "t3" demoState2).elements.length = 1 := by
    have := congrArg List.length h
    simpa using this
  refine ⟨h, ?_⟩
  rw [h, hlen]
  simp [List.range_succ]

/-- C4 amended: `reorderElements` with valid indices always re-establishes
`displayOrder = {0, ..., n-1}` (as the exact list of indices), and element
creation through the factory (`addElement` of a `createElement` result, and
`pasteElements`' loop) preserves that invariant; the delete actions do not
renumber and are excluded (see the counterexample). -/
theorem displayOrder_amended (now : String) (s : AnnotationState) :
    (∀ oldIndex newIndex : Nat,
      oldIndex < s.elements.length → newIndex < s.elements.length →
      (reorderElements oldIndex newIndex now s).elements.map (fun e => e.displayOrder)
        = (List.range s.elements.length).map (fun (i : ℕ) => (i : ℚ)))
    ∧ (s.elements.map (fun e => e.displayOrder)
          = (List.range s.elements.length).map (fun (i : ℕ) => (i : ℚ)) →
        (∀ (newId : ElementId) (nowc : String) (bbox : BBox),
          (addElement (createElement newId nowc
              { bbox := bbox, existingElements := s.elements }) now s).elements.map
              (fun e => e.displayOrder)
            = (List.range (s.elements.length + 1)).map (fun (i : ℕ) => (i : ℚ)))
        ∧ (∀ (newIds : List ElementId) (P : Project),
          s.project = some P →
          s.clipboard.elements.length ≤ newIds.length →
          (pasteElements newIds now s).elements.map (fun e => e.displayOrder)
            = (List.range (s.elements.length + s.clipboard.elements.length)).map
                (fun (i : ℕ) => (i : ℚ)))) := by
  constructor
  · intro oldIndex newIndex hold hnew
    rw [reorderElements, List.get?_eq_get hold]
    have hlen_erase : (s.elements.eraseIdx oldIndex).length = s.elements.length - 1 := by
      rw [List.length_eraseIdx, if_pos hold]
    have hlen_ins :
        (((s.elements.eraseIdx oldIndex).insertIdx newIndex (s.elements.get ⟨oldIndex, hold⟩))).length
          = s.elements.length := by
      rw [List.length_insertIdx _ _ (by omega), hlen_erase]
      omega
    rw [(syncElementsToProject_proj now _).2.1]
    show ((((s.elements.eraseIdx oldIndex).insertIdx newIndex
        (s.elements.get ⟨oldIndex, hold⟩)).enum.map
          (fun p => { p.2 with displayOrder := (p.1 : ℚ) })).map (fun e => e.displayOrder))
      = _
    rw [List.map_map]
    have : ((fun e => e.displayOrder) ∘ fun (p : ℕ × EditorElement) =>
        { p.2 with displayOrder := (p.1 : ℚ) }) = fun p => ((p.1 : ℕ) : ℚ) := rfl
    rw [this]
    have hcomp : (fun (p : ℕ × EditorElement) => ((p.1 : ℕ) : ℚ))
        = (fun (i : ℕ) => (i : ℚ)) ∘ Prod.fst := rfl
    rw [hcomp, ← List.map_map, List.enum_map_fst, hlen_ins]
  · intro hinv
    constructor
    · intro newId nowc bbox
      rw [addElement, (syncElementsToProject_proj now _).2.1, List.map_append, hinv]
      rw [List.range_add]
      simp [createElement, List.range_succ]
    · intro newIds P hP hlen
      rcases hcb : s.clipboard.elements with _ | ⟨c0, cbs⟩
      · rw [pasteElements, hP]
        simp only [getImageSize, hcb]
        norm_num
        rw [hinv]
      · rw [pasteElements, hP]
        simp only [getImageSize]
        rw [if_neg (by rw [hcb]; simp)]
        rw [(syncElementsToProject_proj now _).2.1]
        show ((s.elements ++ pasteLoop { width := P.imageWidth, height := P.imageHeight } now
            s.elements s.clipboard.elements newIds).map (fun e => e.displayOrder)) = _
        obtain ⟨_, _, h3, _, _, _⟩ := pasteLoop_spec
          { width := P.imageWidth, height := P.imageHeight } now
          s.clipboard.elements newIds s.elements hlen
        rw [List.map_append, hinv, h3, range_cast_append, hcb]

/-- C4 witness: reordering the two-element demo state (move index 0 to
index 1) yields displayOrder values exactly `[0, 1]`. -/
theorem displayOrder_amended_witness :
    (reorderElements 0 1 "t4" demoState2).elements.map (fun e => e.displayOrder)
      = [(0 : ℚ), 1] := by
  have hlen : demoState2.elements.length = 2 := by
    simp [demoState2, demoState1, addElement, createElement, loadProject,
      initialState, syncElementsToProject, demoProject, demoBBox]
  have h := (displayOrder_amended "t4" demoState2).1 0 1
    (by rw [hlen]; norm_num) (by rw [hlen]; norm_num)
  rw [h, hlen]
  simp [List.range_succ]

/-! ## C6 — paste semantics -/

/-- C6: with a loaded project and non-empty clipboard (and a fresh id
supplied per clipboard element — the model of `uuidv4()`), `pasteElements`
appends exactly one new element per clipboard element, offset by +20px in x
and y with unchanged width/height and transferred label/component/notes/
color; every new element's id and serial number differ from those of every
element already present, and the new elements are pairwise distinct in id
and serial; the selection becomes exactly the new ids and the clipboard is
replaced by the just-pasted elements.  The closing conjunct pins the claim's
scenario: copying `[E1]` and pasting twice yields elements at +20px and
+40px with distinct ids and serials 1, 2, 3. -/
theorem pasteElements_spec (newIds : List ElementId) (now : String)
    (s : AnnotationState) (P : Project)
    (hP : s.project = some P)
    (hcb : s.clipboard.elements ≠ [])
    (hlen : s.clipboard.elements.length ≤ newIds.length)
    (hnodup : newIds.Nodup)
    (hfresh : ∀ i ∈ newIds, ∀ e ∈ s.elements, e.id ≠ i) :
    (pasteElements newIds now s).elements
      = s.elements ++ pastedElements P newIds now s
    ∧ (pastedElements P newIds now s).length = s.clipboard.elements.length
    ∧ List.Forall₂ (fun ce ne =>
        ne.bbox.pixel = { x := ce.bbox.pixel.x + 20, y := ce.bbox.pixel.y + 20,
                          w := ce.bbox.pixel.w, h := ce.bbox.pixel.h } ∧
        ne.label = ce.label ∧ ne.component = ce.component ∧
        ne.notes = ce.notes ∧ ne.color = ce.color)
        s.clipboard.elements (pastedElements P newIds now s)
    ∧ (pastedElements P newIds now s).map (fun e => e.id)
      = newIds.take s.clipboard.elements.length
    ∧ (∀ ne ∈ pastedElements P newIds now s, ∀ e ∈ s.elements,
        ne.id ≠ e.id ∧ e.serialNumber < ne.serialNumber)
    ∧ (pastedElements P newIds now s).Pairwise
        (fun a b => a.id ≠ b.id ∧ a.serialNumber < b.serialNumber)
    ∧ (pasteElements newIds now s).selection.selectedIds
      = (pastedElements P newIds now s).map (fun e => e.id)
    ∧ (pasteElements newIds now s).clipboard.elements
      = pastedElements P newIds now s
    ∧ (pasteElements ["p2"] "t3" (pasteElements ["p1"] "t2" pasteDemoState)).elements.map
          (fun e => (e.id, e.bbox.pixel.x, e.bbox.pixel.y, e.serialNumber))
        = [("e1", 0, 0, 1), ("p1", 20, 20, 2), ("p2", 40, 40, 3)] := by
  simp only [pastedElements]
  obtain ⟨l1, l2, l3, l4, l5, l6⟩ := pasteLoop_spec
    { width := P.imageWidth, height := P.imageHeight } now
    s.clipboard.elements newIds s.elements hlen
  have hcond : ¬ s.clipboard.elements.length = 0 :=
    fun h => hcb (List.length_eq_zero.mp h)
  have hunfold : pasteElements newIds now s =
      syncElementsToProject now
        { s with
          elements := s.elements ++
            (pasteLoop { width := P.imageWidth, height := P.imageHeight } now
              s.elements s.clipboard.elements newIds)
          selection := { selectedIds :=
            (pasteLoop { width := P.imageWidth, height := P.imageHeight } now
              s.elements s.clipboard.elements newIds).map (fun e => e.id) }
          clipboard := { elements :=
            (pasteLoop { width := P.imageWidth, height := P.imageHeight } now
              s.elements s.clipboard.elements newIds) } } := by
    rw [pasteElements, hP]
    simp only [getImageSize]
    rw [if_neg hcond]
  refine ⟨?_, l1, l4, l2, ?_, ?_, ?_, ?_, ?_⟩
  · rw [hunfold, (syncElementsToProject_proj now _).2.1]
  · intro ne hne e he
    refine ⟨?_, l5 ne hne e he⟩
    have hmem := List.mem_map_of_mem (fun e => e.id) hne
    rw [l2] at hmem
    exact (hfresh ne.id (List.take_subset _ _ hmem) e he).symm
  · have hids : ((pasteLoop { width := P.imageWidth, height := P.imageHeight } now
        s.elements s.clipboard.elements newIds).map (fun e => e.id)).Nodup := by
      rw [l2]
      exact List.Nodup.sublist (List.take_sublist _ _) hnodup
    exact (List.pairwise_map.mp hids).and l6
  · rw [hunfold]
    rw [show ∀ s', (syncElementsToProject now s').selection = s'.selection
      from fun s' => (syncElementsToProject_proj now s').2.2.1]
  · rw [hunfold]
    rw [show ∀ s', (syncElementsToProject now s').clipboard = s'.clipboard
      from fun s' => (syncElementsToProject_proj now s').2.2.2.2]
  · simp [pasteDemoState, pasteDemoElement, pasteElements, pasteLoop,
      copySelectedElements, selectElement, addElement, createElement,
      loadProject, initialState, syncElementsToProject, demoProject, demoBBox,
      generateSerialNumber, getImageSize, createBBox, pixelToNorm]
    norm_num

/-- C6 witness: pasting `["p1"]` into the copied one-element demo store
selects exactly `["p1"]` and grows the element list to two. -/
theorem pasteElements_spec_witness :
    (pasteElements ["p1"] "t2" pasteDemoState).selection.selectedIds = ["p1"] ∧
    (pasteElements ["p1"] "t2" pasteDemoState).elements.length = 2 := by
  have hP : pasteDemoState.project
      = some { demoProject with elements := [pasteDemoElement], updatedAt := "t0" } := by
    simp [pasteDemoState, pasteDemoElement, copySelectedElements, selectElement,
      addElement, createElement, loadProject, initialState, syncElementsToProject,
      demoProject, demoBBox]
  have hcbeq : pasteDemoState.clipboard.elements = [pasteDemoElement] := by
    simp [pasteDemoState, pasteDemoElement, copySelectedElements, selectElement,
      addElement, createElement, loadProject, initialState, syncElementsToProject,
      demoProject, demoBBox]
  have helems : pasteDemoState.elements = [pasteDemoElement] := by
    simp [pasteDemoState, pasteDemoElement, copySelectedElements, selectElement,
      addElement, createElement, loadProject, initialState, syncElementsToProject,
      demoProject, demoBBox]
  obtain ⟨h1, h2, _, h4, _, _, h7, _, _⟩ :=
    pasteElements_spec ["p1"] "t2" pasteDemoState
      { demoProject with elements := [pasteDemoElement], updatedAt := "t0" } hP
      (by rw [hcbeq]; simp)
      (by rw [hcbeq]; simp)
      (by simp)
      (by
        intro i hi e he
        rw [helems] at he
        simp at hi he
        rw [he, hi, pasteDemoElement, createElement]
        simp)
  constructor
  · rw [h7, h4, hcbeq]
    rfl
  · rw [h1, List.length_append, helems, h2, hcbeq]
    rfl

/-! ## C7 — undo/redo selection repair -/

/-- `syncAfterTemporalChange` filters the selection down to ids present in
the (restored) elements array, leaves the elements unchanged, and re-syncs
the loaded project's elements. -/
lemma syncAfterTemporalChange_spec (now : String) (s : AnnotationState) :
    (syncAfterTemporalChange now s).selection.selectedIds
      = s.selection.selectedIds.filter
          (fun id => (s.elements.map (fun e => e.id)).contains id)
    ∧ (syncAfterTemporalChange now s).elements = s.elements
    ∧ (∀ P, s.project = some P →
        ∃ P', (syncAfterTemporalChange now s).project = some P'
          ∧ P'.elements = s.elements) := by
  rw [syncAfterTemporalChange]
  by_cases hlen : (s.selection.selectedIds.filter
      (fun id => (s.elements.map (fun e => e.id)).contains id)).length
      ≠ s.selection.selectedIds.length
  · rw [if_pos hlen]
    refine ⟨?_, ?_, ?_⟩
    · cases s.project <;> rfl
    · cases s.project <;> rfl
    · intro P hP
      rw [hP]
      exact ⟨_, rfl, rfl⟩
  · rw [if_neg hlen]
    push_neg at hlen
    have hfix : s.selection.selectedIds.filter
        (fun id => (s.elements.map (fun e => e.id)).contains id)
        = s.selection.selectedIds :=
      List.Sublist.eq_of_length (List.filter_sublist _) hlen
    refine ⟨?_, ?_, ?_⟩
    · cases s.project <;> exact hfix.symm
    · cases s.project <;> rfl
    · intro P hP
      rw [hP]
      exact ⟨_, rfl, rfl⟩

/-- C7: after an undo (non-empty past) or a redo (non-empty future), the
elements array is the restored snapshot, the selection equals the previous
selection filtered to ids present in that snapshot (so relative order is
preserved and no dangling id remains), and the loaded project's elements are
re-synced to the restored array. -/
theorem undoRedo_selection_repair (now : String) (t : TemporalState)
    (s : AnnotationState) :
    (∀ prev rest, t.pastStates = prev :: rest →
      (undoAnnotationAction now t s).2.elements = prev ∧
      (undoAnnotationAction now t s).2.selection.selectedIds
        = s.selection.selectedIds.filter
            (fun id => (prev.map (fun e => e.id)).contains id) ∧
      (∀ id ∈ (undoAnnotationAction now t s).2.selection.selectedIds,
        id ∈ (undoAnnotationAction now t s).2.elements.map (fun e => e.id)) ∧
      ((undoAnnotationAction now t s).2.selection.selectedIds).Sublist
        s.selection.selectedIds ∧
      (∀ P, s.project = some P →
        ∃ P', (undoAnnotationAction now t s).2.project = some P'
          ∧ P'.elements = (undoAnnotationAction now t s).2.elements))
    ∧ (∀ next rest, t.futureStates = next :: rest →
      (redoAnnotationAction now t s).2.elements = next ∧
      (redoAnnotationAction now t s).2.selection.selectedIds
        = s.selection.selectedIds.filter
            (fun id => (next.map (fun e => e.id)).contains id) ∧
      (∀ id ∈ (redoAnnotationAction now t s).2.selection.selectedIds,
        id ∈ (redoAnnotationAction now t s).2.elements.map (fun e => e.id)) ∧
      ((redoAnnotationAction now t s).2.selection.selectedIds).Sublist
        s.selection.selectedIds ∧
      (∀ P, s.project = some P →
        ∃ P', (redoAnnotationAction now t s).2.project = some P'
          ∧ P'.elements = (redoAnnotationAction now t s).2.elements)) := by
  constructor
  · intro prev rest hpast
    have hs2 : (undoAnnotationAction now t s).2
        = syncAfterTemporalChange now { s with elements := prev } := by
      rw [undoAnnotationAction, if_neg (by rw [hpast]; simp), temporalUndo, hpast]
    obtain ⟨g1, g2, g3⟩ := syncAfterTemporalChange_spec now { s with elements := prev }
    rw [hs2]
    refine ⟨g2, g1, ?_, ?_, ?_⟩
    · intro id hid
      rw [g1] at hid
      rw [g2]
      have := (List.mem_filter.mp hid).2
      simpa using this
    · rw [g1]
      exact List.filter_sublist _
    · intro P hP
      obtain ⟨P', hP1, hP2⟩ := g3 P hP
      exact ⟨P', hP1, by rw [hP2, g2]⟩
  · intro next rest hfut
    have hs2 : (redoAnnotationAction now t s).2
        = syncAfterTemporalChange now { s with elements := next } := by
      rw [redoAnnotationAction, if_neg (by rw [hfut]; simp), temporalRedo, hfut]
    obtain ⟨g1, g2, g3⟩ := syncAfterTemporalChange_spec now { s with elements := next }
    rw [hs2]
    refine ⟨g2, g1, ?_, ?_, ?_⟩
    · intro id hid
      rw [g1] at hid
      rw [g2]
      have := (List.mem_filter.mp hid).2
      simpa using this
    · rw [g1]
      exact List.filter_sublist _
    · intro P hP
      obtain ⟨P', hP1, hP2⟩ := g3 P hP
      exact ⟨P', hP1, by rw [hP2, g2]⟩

/-- C7 witness: undoing to the empty snapshot from a state whose selection
holds the id `"e1"` of the one existing element drops the now-dangling id:
the restored elements are `[]` and the repaired selection is `[]`. -/
theorem undoRedo_selection_repair_witness :
    (undoAnnotationAction "t9" { pastStates := [[]], futureStates := [] }
        demoState1).2.elements = []
    ∧ (undoAnnotationAction "t9" { pastStates := [[]], futureStates := [] }
        (selectElement "a" false demoState1)).2.selection.selectedIds = [] := by
  constructor
  · exact ((undoRedo_selection_repair "t9"
      { pastStates := [[]], futureStates := [] } demoState1).1 [] [] rfl).1
  · have h := ((undoRedo_selection_repair "t9"
      { pastStates := [[]], futureStates := [] }
      (selectElement "a" false demoState1)).1 [] [] rfl).2.1
    rw [h]
    rfl

/-! ## C8 — viewport scale clamping (corrected) -/

/-- C8 counterexample: at a viewport state satisfying the claim's hypothesis
`minScale ≤ scale ≤ maxScale` but with `maxScale < 1` (minScale 0.1, scale
0.25, maxScale 0.5 — never produced by the store, whose bounds are fixed at
0.1 and 5), `centerAt100` — one of the claim's listed scale-writing actions —
sets `scale = 1`, violating `scale ≤ maxScale`. -/
theorem viewport_clamp_counterexample :
    (let s : AnnotationState :=
      { initialState with
        project := some demoProject
        containerSize := { width := 100, height := 100 }
        viewport := { scale := 1/4, offsetX := 0, offsetY := 0,
                      minScale := 1/10, maxScale := 1/2 } }
    (s.viewport.minScale ≤ s.viewport.scale
      ∧ s.viewport.scale ≤ s.viewport.maxScale)
    ∧ ¬ ((centerAt100 s).viewport.scale ≤ (centerAt100 s).viewport.maxScale)) := by
  refine ⟨⟨by norm_num, by norm_num⟩, ?_⟩
  norm_num [centerAt100, getImageSize, demoProject, initialState]

/-- The clamping invariant of the claim, plus the side conditions that make
it inductive: positive `minScale` and `minScale ≤ 1 ≤ maxScale` (the store's
fixed bounds 0.1 and 5 satisfy them, and no action ever writes other
bounds). -/
def viewportOk (s : AnnotationState) : Prop :=
  0 < s.viewport.minScale ∧ s.viewport.minScale ≤ 1 ∧ 1 ≤ s.viewport.maxScale
  ∧ s.viewport.minScale ≤ s.viewport.scale
  ∧ s.viewport.scale ≤ s.viewport.maxScale

/-- `setScale` preserves the viewport invariant. -/
lemma setScale_ok (v : ℚ) (s : AnnotationState) (h : viewportOk s) :
    viewportOk (setScale v s) := by
  obtain ⟨h1, h2, h3, h4, h5⟩ := h
  exact ⟨h1, h2, h3, le_min (le_max_right _ _) (le_trans h2 h3), min_le_right _ _⟩

/-- `setViewport` preserves the viewport invariant. -/
lemma setViewport_ok (v ox oy : ℚ) (s : AnnotationState) (h : viewportOk s) :
    viewportOk (setViewport v ox oy s) := by
  obtain ⟨h1, h2, h3, h4, h5⟩ := h
  exact ⟨h1, h2, h3, le_min (le_max_right _ _) (le_trans h2 h3), min_le_right _ _⟩

/-- `zoomIn` preserves the viewport invariant. -/
lemma zoomIn_ok (s : AnnotationState) (h : viewportOk s) :
    viewportOk (zoomIn s) := by
  obtain ⟨h1, h2, h3, h4, h5⟩ := h
  rw [zoomIn]
  split
  · exact ⟨h1, h2, h3, h4, h5⟩
  · refine ⟨h1, h2, h3, ?_, min_le_right _ _⟩
    refine le_min (le_trans h4 ?_) (le_trans h2 h3)
    exact le_mul_of_one_le_right (le_trans h1.le h4) (by norm_num [canvasConfig])

/-- `zoomOut` preserves the viewport invariant. -/
lemma zoomOut_ok (s : AnnotationState) (h : viewportOk s) :
    viewportOk (zoomOut s) := by
  obtain ⟨h1, h2, h3, h4, h5⟩ := h
  rw [zoomOut]
  split
  · exact ⟨h1, h2, h3, h4, h5⟩
  · refine ⟨h1, h2, h3, le_max_right _ _, max_le (le_trans ?_ h5) (le_trans h2 h3)⟩
    exact div_le_self (le_trans h1.le h4) (by norm_num [canvasConfig])

/-- `zoomToFit` preserves the viewport invariant. -/
lemma zoomToFit_ok (s : AnnotationState) (h : viewportOk s) :
    viewportOk (zoomToFit s) := by
  obtain ⟨h1, h2, h3, h4, h5⟩ := h
  rw [zoomToFit]
  split
  · exact ⟨h1, h2, h3, h4, h5⟩
  · split
    · exact ⟨h1, h2, h3, h4, h5⟩
    · exact ⟨h1, h2, h3, le_min (le_max_right _ _) (le_trans h2 h3), min_le_right _ _⟩

/-- `centerAt100` preserves the viewport invariant. -/
lemma centerAt100_ok (s : AnnotationState) (h : viewportOk s) :
    viewportOk (centerAt100 s) := by
  obtain ⟨h1, h2, h3, h4, h5⟩ := h
  rw [centerAt100]
  split
  · exact ⟨h1, h2, h3, h4, h5⟩
  · split
    · exact ⟨h1, h2, h3, h4, h5⟩
    · exact ⟨h1, h2, h3, h2, h3⟩

/-- `resetViewport` preserves the viewport invariant. -/
lemma resetViewport_ok (s : AnnotationState) (_h : viewportOk s) :
    viewportOk (resetViewport s) := by
  refine ⟨?_, ?_, ?_, ?_, ?_⟩ <;> norm_num [resetViewport, initialViewportState]

/-- C8 amended: for every viewport state with `minScale ≤ scale ≤ maxScale`
and additionally `0 < minScale` and `minScale ≤ 1 ≤ maxScale` (true of the
store's only bounds, 0.1 and 5), every scale-writing action — `setScale`,
`setViewport`, `zoomIn`, `zoomOut`, `zoomToFit`, `centerAt100`,
`resetViewport` — keeps `minScale ≤ scale ≤ maxScale`, and arbitrary
repetitions of `zoomIn` / `zoomOut` never leave those bounds. -/
theorem viewport_scale_clamped (s : AnnotationState)
    (h1 : 0 < s.viewport.minScale) (h2 : s.viewport.minScale ≤ 1)
    (h3 : 1 ≤ s.viewport.maxScale)
    (h4 : s.viewport.minScale ≤ s.viewport.scale)
    (h5 : s.viewport.scale ≤ s.viewport.maxScale) :
    (∀ v, (setScale v s).viewport.minScale ≤ (setScale v s).viewport.scale
      ∧ (setScale v s).viewport.scale ≤ (setScale v s).viewport.maxScale)
    ∧ (∀ v ox oy,
      (setViewport v ox oy s).viewport.minScale ≤ (setViewport v ox oy s).viewport.scale
      ∧ (setViewport v ox oy s).viewport.scale ≤ (setViewport v ox oy s).viewport.maxScale)
    ∧ (∀ n : ℕ,
      (zoomIn^[n] s).viewport.minScale ≤ (zoomIn^[n] s).viewport.scale
      ∧ (zoomIn^[n] s).viewport.scale ≤ (zoomIn^[n] s).viewport.maxScale)
    ∧ (∀ n : ℕ,
      (zoomOut^[n] s).viewport.minScale ≤ (zoomOut^[n] s).viewport.scale
      ∧ (zoomOut^[n] s).viewport.scale ≤ (zoomOut^[n] s).viewport.maxScale)
    ∧ ((zoomToFit s).viewport.minScale ≤ (zoomToFit s).viewport.scale
      ∧ (zoomToFit s).viewport.scale ≤ (zoomToFit s).viewport.maxScale)
    ∧ ((centerAt100 s).viewport.minScale ≤ (centerAt100 s).viewport.scale
      ∧ (centerAt100 s).viewport.scale ≤ (centerAt100 s).viewport.maxScale)
    ∧ ((resetViewport s).viewport.minScale ≤ (resetViewport s).viewport.scale
      ∧ (resetViewport s).viewport.scale ≤ (resetViewport s).viewport.maxScale) := by
  have hOk : viewportOk s := ⟨h1, h2, h3, h4, h5⟩
  have hIterIn : ∀ n : ℕ, viewportOk (zoomIn^[n] s) := by
    intro n
    induction n with
    | zero => exact hOk
    | succ k ih => rw [Function.iterate_succ_apply']; exact zoomIn_ok _ ih
  have hIterOut : ∀ n : ℕ, viewportOk (zoomOut^[n] s) := by
    intro n
    induction n with
    | zero => exact hOk
    | succ k ih => rw [Function.iterate_succ_apply']; exact zoomOut_ok _ ih
  refine ⟨?_, ?_, ?_, ?_, ?_, ?_, ?_⟩
  · intro v; exact ⟨(setScale_ok v s hOk).2.2.2.1, (setScale_ok v s hOk).2.2.2.2⟩
  · intro v ox oy
    exact ⟨(setViewport_ok v ox oy s hOk).2.2.2.1, (setViewport_ok v ox oy s hOk).2.2.2.2⟩
  · intro n; exact ⟨(hIterIn n).2.2.2.1, (hIterIn n).2.2.2.2⟩
  · intro n; exact ⟨(hIterOut n).2.2.2.1, (hIterOut n).2.2.2.2⟩
  · exact ⟨(zoomToFit_ok s hOk).2.2.2.1, (zoomToFit_ok s hOk).2.2.2.2⟩
  · exact ⟨(centerAt100_ok s hOk).2.2.2.1, (centerAt100_ok s hOk).2.2.2.2⟩
  · exact ⟨(resetViewport_ok s hOk).2.2.2.1, (resetViewport_ok s hOk).2.2.2.2⟩

/-- C8 witness: from the loaded demo store with a 100×100 container (bounds
0.1 and 5, scale 1), ten repeated `zoomIn` calls keep the scale within
bounds. -/
theorem viewport_scale_clamped_witness :
    (zoomIn^[10] (setContainerSize 100 100 (loadProject demoProject initialState))).viewport.minScale
      ≤ (zoomIn^[10] (setContainerSize 100 100 (loadProject demoProject initialState))).viewport.scale
    ∧ (zoomIn^[10] (setContainerSize 100 100 (loadProject demoProject initialState))).viewport.scale
      ≤ (zoomIn^[10] (setContainerSize 100 100 (loadProject demoProject initialState))).viewport.maxScale := by
  exact (viewport_scale_clamped (setContainerSize 100 100 (loadProject demoProject initialState))
    (by norm_num [setContainerSize, loadProject, initialState, initialViewportState])
    (by norm_num [setContainerSize, loadProject, initialState, initialViewportState])
    (by norm_num [setContainerSize, loadProject, initialState, initialViewportState])
    (by norm_num [setContainerSize, loadProject, initialState, initialViewportState])
    (by norm_num [setContainerSize, loadProject, initialState, initialViewportState])).2.2.1 10

/-! ## C2 — resize snapping: first target within threshold per edge -/

/-- The first component of `resizeScanPair` (the first edge's latched snap):
once latched it never changes, and otherwise it is the first target within
threshold. -/
lemma resizeScanPair_fst (gtype : GuidelineType) (e1 e2 thr : ℚ) :
    ∀ (targets : List ℚ) (s1 s2 : Option ℚ) (gl : List ResizeGuideline),
      (resizeScanPair gtype e1 e2 thr targets (s1, s2, gl)).1
        = match s1 with
          | some v => some v
          | none => targets.find? (fun t => decide (|e1 - t| < thr)) := by
  intro targets
  induction targets with
  | nil => intro s1 s2 gl; cases s1 <;> rfl
  | cons t rest ih =>
    intro s1 s2 gl
    rcases s1 with _ | v
    · by_cases hd1 : |e1 - t| < thr
      · rw [List.find?_cons_of_pos _ (by simpa using hd1)]
        simp only [resizeScanPair]
        rw [ih]
        simp [hd1]
      · rw [List.find?_cons_of_neg _ (by simpa using hd1)]
        simp only [resizeScanPair]
        rw [ih]
        simp [hd1]
    · simp only [resizeScanPair]
      rw [ih]
      simp

/-- The second component of `resizeScanPair` (the second edge's latched
snap). -/
lemma resizeScanPair_snd (gtype : GuidelineType) (e1 e2 thr : ℚ) :
    ∀ (targets : List ℚ) (s1 s2 : Option ℚ) (gl : List ResizeGuideline),
      (resizeScanPair gtype e1 e2 thr targets (s1, s2, gl)).2.1
        = match s2 with
          | some v => some v
          | none => targets.find? (fun t => decide (|e2 - t| < thr)) := by
  intro targets
  induction targets with
  | nil => intro s1 s2 gl; cases s2 <;> rfl
  | cons t rest ih =>
    intro s1 s2 gl
    rcases s2 with _ | v
    · by_cases hd2 : |e2 - t| < thr
      · rw [List.find?_cons_of_pos _ (by simpa using hd2)]
        simp only [resizeScanPair]
        rw [ih]
        simp [hd2]
      · rw [List.find?_cons_of_neg _ (by simpa using hd2)]
        simp only [resizeScanPair]
        rw [ih]
        simp [hd2]
    · simp only [resizeScanPair]
      rw [ih]
      simp

/-- The guidelines accumulated by `resizeScanPair`: up to permutation, the
incoming list plus one guideline per edge that latches during the scan. -/
lemma resizeScanPair_guidelines (gtype : GuidelineType) (e1 e2 thr : ℚ) :
    ∀ (targets : List ℚ) (s1 s2 : Option ℚ) (gl : List ResizeGuideline),
      ((resizeScanPair gtype e1 e2 thr targets (s1, s2, gl)).2.2).Perm
        (gl ++ contribGuide gtype s1 (targets.find? (fun t => decide (|e1 - t| < thr)))
            ++ contribGuide gtype s2 (targets.find? (fun t => decide (|e2 - t| < thr)))) := by
  intro targets
  induction targets with
  | nil =>
    intro s1 s2 gl
    cases s1 <;> cases s2 <;> simp [resizeScanPair, contribGuide, guideOpt]
  | cons t rest ih =>
    intro s1 s2 gl
    have hp1 : |e1 - t| < thr →
        List.find? (fun t => decide (|e1 - t| < thr)) (t :: rest) = some t :=
      fun h => List.find?_cons_of_pos _ (by simpa using h)
    have hn1 : ¬ |e1 - t| < thr →
        List.find? (fun t => decide (|e1 - t| < thr)) (t :: rest)
          = List.find? (fun t => decide (|e1 - t| < thr)) rest :=
      fun h => List.find?_cons_of_neg _ (by simpa using h)
    have hp2 : |e2 - t| < thr →
        List.find? (fun t => decide (|e2 - t| < thr)) (t :: rest) = some t :=
      fun h => List.find?_cons_of_pos _ (by simpa using h)
    have hn2 : ¬ |e2 - t| < thr →
        List.find? (fun t => decide (|e2 - t| < thr)) (t :: rest)
          = List.find? (fun t => decide (|e2 - t| < thr)) rest :=
      fun h => List.find?_cons_of_neg _ (by simpa using h)
    rcases s1 with _ | v1 <;> rcases s2 with _ | v2
    · by_cases hd1 : |e1 - t| < thr <;> by_cases hd2 : |e2 - t| < thr
      · rw [hp1 hd1, hp2 hd2]
        simp only [resizeScanPair]
        refine (ih _ _ _).trans ?_
        simp [hd1, hd2, contribGuide, guideOpt, List.append_assoc]
      · rw [hp1 hd1, hn2 hd2]
        simp only [resizeScanPair]
        refine (ih _ _ _).trans ?_
        simp [hd1, hd2, contribGuide, guideOpt, List.append_assoc]
      · -- the interleaving case: e2 latches at the head, e1 only later
        rw [hn1 hd1, hp2 hd2]
        simp only [resizeScanPair]
        refine (ih _ _ _).trans ?_
        rcases hf1 : List.find? (fun t => decide (|e1 - t| < thr)) rest with _ | u
        · simp [hd1, hd2, hf1, contribGuide, guideOpt, List.append_assoc]
        · simp only [hf1, hd1, hd2, contribGuide, guideOpt, List.append_assoc]
          simp [hd1, hd2]
          refine List.Perm.append_left gl ?_
          exact List.Perm.swap _ _ _
      · rw [hn1 hd1, hn2 hd2]
        simp only [resizeScanPair]
        refine (ih _ _ _).trans ?_
        simp [hd1, hd2, contribGuide, guideOpt, List.append_assoc]
    · by_cases hd1 : |e1 - t| < thr
      · rw [hp1 hd1]
        simp only [resizeScanPair]
        refine (ih _ _ _).trans ?_
        simp [hd1, contribGuide, guideOpt, List.append_assoc]
      · rw [hn1 hd1]
        simp only [resizeScanPair]
        refine (ih _ _ _).trans ?_
        simp [hd1, contribGuide, guideOpt, List.append_assoc]
    · by_cases hd2 : |e2 - t| < thr
      · rw [hp2 hd2]
        simp only [resizeScanPair]
        refine (ih _ _ _).trans ?_
        simp [hd2, contribGuide, guideOpt, List.append_assoc]
      · rw [hn2 hd2]
        simp only [resizeScanPair]
        refine (ih _ _ _).trans ?_
        simp [hd2, contribGuide, guideOpt, List.append_assoc]
    · simp only [resizeScanPair]
      refine (ih _ _ _).trans ?_
      simp [contribGuide, guideOpt, List.append_assoc]

/-- C2: each of the four edges independently snaps to the *first* target in
the implementation's scan order (image bounds 0, size/2, size, then per
non-excluded element in list order its edge, opposite edge and center) whose
distance to the edge is strictly below the 8px threshold — first match, not
nearest — and is `none` exactly when no target is within threshold; the
emitted guidelines are, up to order, one guideline at the matched coordinate
per matched edge. -/
theorem getResizeSnapResult_spec (edges : ResizeEdges)
    (elements : List EditorElement) (excludeId : ElementId)
    (imageWidth imageHeight : ℚ) :
    (getResizeSnapResult edges elements excludeId imageWidth imageHeight).snapLeft
      = (resizeVerticalTargets elements excludeId imageWidth).find?
          (fun t => decide (|edges.left - t| < snapConfig.threshold))
    ∧ (getResizeSnapResult edges elements excludeId imageWidth imageHeight).snapRight
      = (resizeVerticalTargets elements excludeId imageWidth).find?
          (fun t => decide (|edges.right - t| < snapConfig.threshold))
    ∧ (getResizeSnapResult edges elements excludeId imageWidth imageHeight).snapTop
      = (resizeHorizontalTargets elements excludeId imageHeight).find?
          (fun t => decide (|edges.top - t| < snapConfig.threshold))
    ∧ (getResizeSnapResult edges elements excludeId imageWidth imageHeight).snapBottom
      = (resizeHorizontalTargets elements excludeId imageHeight).find?
          (fun t => decide (|edges.bottom - t| < snapConfig.threshold))
    ∧ ((getResizeSnapResult edges elements excludeId imageWidth imageHeight).snapLeft = none
      ↔ ∀ t ∈ resizeVerticalTargets elements excludeId imageWidth,
          ¬ |edges.left - t| < snapConfig.threshold)
    ∧ ((getResizeSnapResult edges elements excludeId imageWidth imageHeight).snapRight = none
      ↔ ∀ t ∈ resizeVerticalTargets elements excludeId imageWidth,
          ¬ |edges.right - t| < snapConfig.threshold)
    ∧ ((getResizeSnapResult edges elements excludeId imageWidth imageHeight).snapTop = none
      ↔ ∀ t ∈ resizeHorizontalTargets elements excludeId imageHeight,
          ¬ |edges.top - t| < snapConfig.threshold)
    ∧ ((getResizeSnapResult edges elements excludeId imageWidth imageHeight).snapBottom = none
      ↔ ∀ t ∈ resizeHorizontalTargets elements excludeId imageHeight,
          ¬ |edges.bottom - t| < snapConfig.threshold)
    ∧ ((getResizeSnapResult edges elements excludeId imageWidth imageHeight).guidelines).Perm
        (guideOpt GuidelineType.vertical
            ((getResizeSnapResult edges elements excludeId imageWidth imageHeight).snapLeft)
          ++ guideOpt GuidelineType.vertical
            ((getResizeSnapResult edges elements excludeId imageWidth imageHeight).snapRight)
          ++ guideOpt GuidelineType.horizontal
            ((getResizeSnapResult edges elements excludeId imageWidth imageHeight).snapTop)
          ++ guideOpt GuidelineType.horizontal
            ((getResizeSnapResult edges elements excludeId imageWidth imageHeight).snapBottom)) := by
  have hL : (getResizeSnapResult edges elements excludeId imageWidth imageHeight).snapLeft
      = (resizeVerticalTargets elements excludeId imageWidth).find?
          (fun t => decide (|edges.left - t| < snapConfig.threshold)) := by
    simp only [getResizeSnapResult]
    exact resizeScanPair_fst _ _ _ _ _ _ _ _
  have hR : (getResizeSnapResult edges elements excludeId imageWidth imageHeight).snapRight
      = (resizeVerticalTargets elements excludeId imageWidth).find?
          (fun t => decide (|edges.right - t| < snapConfig.threshold)) := by
    simp only [getResizeSnapResult]
    exact resizeScanPair_snd _ _ _ _ _ _ _ _
  have hT : (getResizeSnapResult edges elements excludeId imageWidth imageHeight).snapTop
      = (resizeHorizontalTargets elements excludeId imageHeight).find?
          (fun t => decide (|edges.top - t| < snapConfig.threshold)) := by
    simp only [getResizeSnapResult]
    exact resizeScanPair_fst _ _ _ _ _ _ _ _
  have hB : (getResizeSnapResult edges elements excludeId imageWidth imageHeight).snapBottom
      = (resizeHorizontalTargets elements excludeId imageHeight).find?
          (fun t => decide (|edges.bottom - t| < snapConfig.threshold)) := by
    simp only [getResizeSnapResult]
    exact resizeScanPair_snd _ _ _ _ _ _ _ _
  refine ⟨hL, hR, hT, hB, ?_, ?_, ?_, ?_, ?_⟩
  · rw [hL]; simp [List.find?_eq_none]
  · rw [hR]; simp [List.find?_eq_none]
  · rw [hT]; simp [List.find?_eq_none]
  · rw [hB]; simp [List.find?_eq_none]
  · rw [hL, hR, hT, hB]
    have hg : (getResizeSnapResult edges elements excludeId imageWidth imageHeight).guidelines
        = (resizeScanPair GuidelineType.horizontal edges.top edges.bottom
            snapConfig.threshold (resizeHorizontalTargets elements excludeId imageHeight)
            (none, none,
              (resizeScanPair GuidelineType.vertical edges.left edges.right
                snapConfig.threshold (resizeVerticalTargets elements excludeId imageWidth)
                (none, none, [])).2.2)).2.2 := by
      simp only [getResizeSnapResult]
    rw [hg]
    have g2 := resizeScanPair_guidelines GuidelineType.horizontal edges.top edges.bottom
      snapConfig.threshold (resizeHorizontalTargets elements excludeId imageHeight)
      none none
      ((resizeScanPair GuidelineType.vertical edges.left edges.right
        snapConfig.threshold (resizeVerticalTargets elements excludeId imageWidth)
        (none, none, [])).2.2)
    have g1 := resizeScanPair_guidelines GuidelineType.vertical edges.left edges.right
      snapConfig.threshold (resizeVerticalTargets elements excludeId imageWidth)
      none none []
    refine g2.trans ?_
    refine (List.Perm.append_right _ (List.Perm.append_right _ g1)).trans ?_
    simp [contribGuide, List.append_assoc]

/-! ## C1 — move snapping: global-minimum match under a strict threshold -/

/-- Folding over a `flatMap` is the nested fold. -/
lemma foldl_over_flatMap {α γ δ : Type} (g : δ → γ → δ) (f : α → List γ) :
    ∀ (l : List α) (i : δ),
      (l.flatMap f).foldl g i = l.foldl (fun a x => (f x).foldl g a) i := by
  intro l
  induction l with
  | nil => intro i; rfl
  | cons x xs ih =>
    intro i
    rw [List.flatMap_cons, List.foldl_append, List.foldl_cons, ih]

/-- A left fold of `min` over the distances never exceeds its seed. -/
lemma foldlMin_le {β : Type} :
    ∀ (l : List (ℚ × β)) (m : ℚ), l.foldl (fun a c => min a c.1) m ≤ m := by
  intro l
  induction l with
  | nil => intro m; exact le_refl m
  | cons c rest ih =>
    intro m
    rw [List.foldl_cons]
    exact le_trans (ih (min m c.1)) (min_le_left _ _)

/-- The strict-improvement scan (the body of `getSnapResult`'s snap loops):
its running minimum ends at the fold of `min`, and the stored value is the
first candidate attaining that minimum when it strictly improves on the
seed, the seed's accumulator otherwise. -/
lemma snapScan_spec {β : Type} :
    ∀ (cands : List (ℚ × β)) (acc : Option β) (m : ℚ),
      cands.foldl (fun a c => if c.1 < a.2 then (some c.2, c.1) else a) (acc, m)
        = ((if cands.foldl (fun a c => min a c.1) m < m
            then (cands.find? (fun c => decide
              (c.1 = cands.foldl (fun a c => min a c.1) m))).map (fun c => c.2)
            else acc),
          cands.foldl (fun a c => min a c.1) m) := by
  intro cands
  induction cands with
  | nil =>
    intro acc m
    simp
  | cons c rest ih =>
    intro acc m
    obtain ⟨d, v⟩ := c
    simp only [List.foldl_cons]
    by_cases hd : d < m
    · rw [if_pos (by simpa using hd)]
      rw [ih]
      have hm : min m d = d := min_eq_right hd.le
      simp only [hm]
      have hMle : rest.foldl (fun a c => min a c.1) d ≤ d := foldlMin_le rest d
      have hMm : rest.foldl (fun a c => min a c.1) d < m := lt_of_le_of_lt hMle hd
      rw [if_pos hMm]
      rcases eq_or_lt_of_le hMle with heq | hlt
      · rw [if_neg (by rw [heq]; exact lt_irrefl d)]
        rw [List.find?_cons_of_pos _ (by simp [heq])]
        rfl
      · rw [if_pos hlt]
        rw [List.find?_cons_of_neg _ (by simp; exact ne_of_gt hlt)]
    · rw [if_neg (by simpa using hd)]
      rw [ih]
      have hm : min m d = m := min_eq_left (le_of_not_lt hd)
      simp only [hm]
      by_cases hMm : rest.foldl (fun a c => min a c.1) m < m
      · rw [if_pos hMm, if_pos hMm]
        have hdM : ¬ (d = rest.foldl (fun a c => min a c.1) m) :=
          ne_of_gt (lt_of_lt_of_le hMm (le_of_not_lt hd))
        rw [List.find?_cons_of_neg _ (by simpa using hdM)]
      · rw [if_neg hMm, if_neg hMm]

/-- `findBestSnap`'s nested loops equal the flat scan over the flattened
candidate list. -/
lemma findBestSnap_eq (checkPoints : List (ℚ × ℚ)) (targets : List SnapTarget) :
    findBestSnap checkPoints targets
      = (snapFullCandidates checkPoints targets).foldl
          (fun a c => if c.1 < a.2 then (some c.2, c.1) else a)
          (none, snapConfig.threshold) := by
  rw [findBestSnap, snapFullCandidates, foldl_over_flatMap]
  simp only [List.foldl_map]

/-- The claim-side candidates are the value projections of the flattened
loop candidates. -/
lemma snapCandidates_eq (checkPoints : List (ℚ × ℚ)) (targets : List SnapTarget) :
    snapCandidates checkPoints targets
      = (snapFullCandidates checkPoints targets).map (fun c => (c.1, c.2.value)) := by
  rw [snapCandidates, snapFullCandidates, List.map_flatMap]
  simp only [List.map_map]
  rfl

/-- The per-axis result of the best-snap loop matches the claim's per-axis
snap specification. -/
lemma findBestSnap_value (checkPoints : List (ℚ × ℚ))
    (targets : List SnapTarget) (p : ℚ) :
    (match (findBestSnap checkPoints targets).1 with
      | some b => b.value
      | none => p)
      = snapAxisSpec p (snapCandidates checkPoints targets) := by
  rw [findBestSnap_eq, snapScan_spec, snapAxisSpec]
  have hmin : snapMinDistance (snapCandidates checkPoints targets)
      = (snapFullCandidates checkPoints targets).foldl
          (fun a c => min a c.1) snapConfig.threshold := by
    rw [snapMinDistance, snapCandidates_eq, List.foldl_map]
  rw [hmin]
  set M := (snapFullCandidates checkPoints targets).foldl
    (fun a c => min a c.1) snapConfig.threshold with hM
  by_cases hc : M < snapConfig.threshold
  · rw [if_pos hc, if_pos hc]
    have hfind : (snapCandidates checkPoints targets).find?
        (fun c => decide (c.1 = M))
        = ((snapFullCandidates checkPoints targets).find?
            (fun c => decide (c.1 = M))).map (fun c => (c.1, c.2.value)) := by
      rw [snapCandidates_eq, List.find?_map]
      rfl
    rw [hfind]
    cases (snapFullCandidates checkPoints targets).find?
      (fun c => decide (c.1 = M)) <;> rfl
  · rw [if_neg hc, if_neg hc]

/-- C1: on each axis, `getSnapResult` returns the value prescribed by the
claim — among all (check-point, target) candidates in iteration order
(targets: non-excluded elements' left/right/center edges then image bounds;
check-points: leading edge with offset 0, trailing edge with offset `-w`,
center with offset `-w/2`, or only the point itself without a moving box),
the first candidate whose distance attains the global minimum, provided that
minimum is strictly below the 8px threshold, and the original coordinate
otherwise.  The closing conjuncts pin the threshold boundary: a point at
distance exactly 8 from the nearest target does not snap, at distance 7 it
snaps. -/
theorem getSnapResult_spec (point : Point) (elements : List EditorElement)
    (excludeIds : List ElementId) (imageWidth imageHeight : ℚ)
    (movingBox : Option MovingBox)
    (_hW : 0 < imageWidth) (_hH : 0 < imageHeight) :
    ((getSnapResult point elements excludeIds imageWidth imageHeight movingBox).x
      = snapAxisSpec point.x (snapCandidates (xCheckPoints point movingBox)
          (moveVerticalTargets elements excludeIds imageWidth))
    ∧ (getSnapResult point elements excludeIds imageWidth imageHeight movingBox).y
      = snapAxisSpec point.y (snapCandidates (yCheckPoints point movingBox)
          (moveHorizontalTargets elements excludeIds imageHeight)))
    ∧ (getSnapResult { x := 92, y := 50 } [] [] 200 100 none).x = 92
    ∧ (getSnapResult { x := 93, y := 50 } [] [] 200 100 none).x = 100 := by
  refine ⟨⟨?_, ?_⟩, ?_, ?_⟩
  · simp only [getSnapResult]
    exact findBestSnap_value _ _ _
  · simp only [getSnapResult]
    exact findBestSnap_value _ _ _
  · simp [getSnapResult, findBestSnap, xCheckPoints, yCheckPoints,
      moveVerticalTargets, moveHorizontalTargets, snapConfig]
    norm_num
  · simp [getSnapResult, findBestSnap, xCheckPoints, yCheckPoints,
      moveVerticalTargets, moveHorizontalTargets, snapConfig]
    norm_num

/-- C1 witness: the axis characterization applied at the boundary points
(92 and 93 against the image-center target 100 of a 200-wide image). -/
theorem getSnapResult_spec_witness :
    (getSnapResult { x := 93, y := 50 } [] [] 200 100 none).x
      = snapAxisSpec 93 (snapCandidates (xCheckPoints { x := 93, y := 50 } none)
          (moveVerticalTargets [] [] 200))
    ∧ (getSnapResult { x := 92, y := 50 } [] [] 200 100 none).x = 92 := by
  exact ⟨(getSnapResult_spec { x := 93, y := 50 } [] [] 200 100 none
      (by norm_num) (by norm_num)).1.1,
    (getSnapResult_spec { x := 92, y := 50 } [] [] 200 100 none
      (by norm_num) (by norm_num)).2.1⟩

end UIAnnotator
